import Mathlib

/-!
Verification development for the `goProjects` openaiAgent repository.

The Go sources are shallowly embedded as Lean definitions:

* `trace.go` (package `traceTools`): spans and the global span-context
  slots become an explicit `TraceState` value threaded through every
  operation; OpenTelemetry span semantics (idempotent `End`, status
  priority, no mutation after end) follow the Go SDK used by the repo.
* `agent.go` (package `agent`): `formatAgentMessages`, `handleToolCalls`
  and `RunAgent` are translated directly; Go panics (`log.Panic`) become
  `Except.error` results that carry the trace state reached while the
  deferred span ends ran during unwinding.
* `tools.go` (package `tools`): the three agent tools.  The external
  collaborators the spec declares out of scope (the DuckDB database and
  the completion endpoint) are supplied as oracle fields of environment
  structures; everything the repository itself computes (error-message
  construction, string cleanup, span handling, control flow) is embedded
  faithfully.
* `main.go` (the traced variant): `startMainSpan`.

The completion endpooint is modelled as the list of responses it returns,
consumed one per router call; JSON argument payloads are modelled by an
inductive `Json` value (`none` standing for a syntactically malformed
payload that `json.Unmarshal` rejects).
-/

/-
--------------------------------------------------------------
JSON values (argument payloads handed to the tool dispatcher)
--------------------------------------------------------------
-/

inductive Json where
  | null : Json
  | bool (b : Bool) : Json
  | num (n : Int) : Json
  | str (s : String) : Json
  | arr (elems : List Json) : Json
  | obj (fields : List (String × Json)) : Json

def Json.isStr : Json → Bool
  | .str _ => true
  | _ => false

def Json.isNull : Json → Bool
  | .null => true
  | _ => false

/-
--------------------------------------------------------------
Trace model (package traceTools, trace.go)
--------------------------------------------------------------
-/

inductive AttrValue where
  | str (s : String) : AttrValue
  | strList (l : List String) : AttrValue
  | int (i : Int) : AttrValue
  | bool (b : Bool) : AttrValue
deriving DecidableEq, Repr

inductive SpanStatus where
  | unset : SpanStatus
  | ok : SpanStatus
  | error : SpanStatus
deriving DecidableEq, Repr

/-- Priority order of the OpenTelemetry status codes (Unset < Error < Ok);
the Go SDK ignores a `SetStatus` whose code is lower than the current one. -/
def SpanStatus.priority : SpanStatus → Nat
  | .unset => 0
  | .error => 1
  | .ok => 2

/-- One span recorded by the tracer.  `parent` is the index of the parent
span, or `none` when the span was started from a background context. -/
structure Span where
  name : String
  parent : Option Nat
  attrs : List (String × AttrValue)
  status : SpanStatus
  ended : Bool
deriving DecidableEq, Repr

def defaultSpan : Span := ⟨"", none, [], .unset, false⟩

/-- The tracer plus the four global span-context variables of trace.go:
`AgentContext`, `LastRouterContext`, `HandleToolContext`, `LastToolContext`.
A context is `some i` when it carries span `i`, `none` for `nil` /
`context.Background()`. -/
structure TraceState where
  spans : List Span
  agentContext : Option Nat
  lastRouterContext : Option Nat
  handleToolContext : Option Nat
  lastToolContext : Option Nat
deriving DecidableEq, Repr

def traceInit : TraceState := ⟨[], none, none, none, none⟩

def getSpan (st : TraceState) (i : Nat) : Span := st.spans.getD i defaultSpan

def modifySpan (st : TraceState) (i : Nat) (f : Span → Span) : TraceState :=
  { st with spans := st.spans.set i (f (getSpan st i)) }

/-- `tracer.Start`: append a fresh span and return its index (the new
context) together with the updated state. -/
def startSpan (name : String) (parent : Option Nat)
    (initAttrs : List (String × AttrValue)) (st : TraceState) : Nat × TraceState :=
  (st.spans.length,
   { st with spans := st.spans ++ [⟨name, parent, initAttrs, .unset, false⟩] })

def openInferenceSpanKindKey : String := "openinference.span.kind"
def openInferenceInputKey : String := "input.value"
def openInferenceOutputKey : String := "output.value"

def agentKind : String := "agent"
def chainKind : String := "chain"
def toolKind : String := "tool"
def llmKind : String := "llm"

/-- `strings.ToUpper` (over the characters of the string). -/
def toUpperString (s : String) : String := String.mk (s.toList.map Char.toUpper)

/-- `StartOpenInferenceSpan`: start a span carrying the uppercased
openinference span-kind attribute, under the given parent context
(`nil` collapses to the background context, i.e. a root span). -/
def startOpenInferenceSpan (name : String) (kind : String)
    (parent : Option Nat) (st : TraceState) : Nat × TraceState :=
  startSpan name parent [(openInferenceSpanKindKey, .str (toUpperString kind))] st

/-- A span started directly from `GetActiveTracer().Start(context.Background(), name)`
(as the tools do): root span, no openinference kind attribute. -/
def startRawSpan (name : String) (st : TraceState) : Nat × TraceState :=
  startSpan name none [] st

/-- `span.SetAttributes` / `SetSpanAttr`: ignored once the span has ended. -/
def setSpanAttr (st : TraceState) (i : Nat) (key : String) (v : AttrValue) : TraceState :=
  modifySpan st i fun s => if s.ended then s else { s with attrs := s.attrs ++ [(key, v)] }

/-- `span.SetStatus` per the Go SDK: a no-op when the span has ended or
when the new code has lower priority than the current one. -/
def setSpanStatus (st : TraceState) (i : Nat) (code : SpanStatus) : TraceState :=
  modifySpan st i fun s =>
    if s.ended then s
    else if s.status.priority > code.priority then s
    else { s with status := code }

/-- `span.End` / `EndOpenInferenceSpan`: idempotent. -/
def endSpan (st : TraceState) (i : Nat) : TraceState :=
  modifySpan st i fun s => if s.ended then s else { s with ended := true }

/-- End a list of spans (deferred `End`s run in LIFO order at return). -/
def endAllSpans (st : TraceState) (ids : List Nat) : TraceState :=
  ids.foldl endSpan st

/-- The openinference kind attribute recorded on a span, if any. -/
def spanKindAttr (s : Span) : Option AttrValue :=
  s.attrs.lookup openInferenceSpanKindKey

/-- Number of spans recorded with the given (uppercased) openinference kind. -/
def countSpansOfKind (st : TraceState) (kindUpper : String) : Nat :=
  (st.spans.filter fun s => spanKindAttr s = some (.str kindUpper)).length

/-- Number of spans with the given name. -/
def countSpansNamed (st : TraceState) (name : String) : Nat :=
  (st.spans.filter fun s => s.name = name).length

/-- Index of the most recently opened span with a name in the given list. -/
def lastSpanNamedIn (st : TraceState) (names : List String) : Option Nat :=
  (List.range st.spans.length).foldl
    (fun acc i => if (getSpan st i).name ∈ names then some i else acc) none

/-
--------------------------------------------------------------
Conversation messages (openai message param values, as the
agent distinguishes them) and the formatter (agent.go)
--------------------------------------------------------------
-/

/-- `openai.ChatCompletionMessageToolCall`: id, function name, and the
arguments payload.  The raw argument string is modelled by its JSON parse
(`none` when the text is not valid JSON). -/
structure ToolCall where
  id : String
  name : String
  arguments : Option Json

/-- Abstract rendering of the SDK's `toolCall.JSON.RawJSON()` (only used
as a span attribute value). -/
def ToolCall.rawJson (c : ToolCall) : String :=
  "toolCall(id=" ++ c.id ++ ", name=" ++ c.name ++ ")"

inductive Message where
  | system (content : String) : Message
  | user (content : String) : Message
  | assistant (content : String) (toolCalls : List ToolCall) : Message
  | tool (toolCallId : String) (content : String) : Message

def Message.isSystem : Message → Bool
  | .system _ => true
  | _ => false

/-- The generic constraint `AgentInput` (`string | []ChatCompletionMessageParamUnion`)
made into a sum: the type switch in the Go source inspects which of the
two instantiations it received. -/
inductive AgentInput where
  | ofString (s : String) : AgentInput
  | ofMessages (msgs : List Message) : AgentInput

def systemPrompt : String :=
  "You are a helpful assistant that can answer questions about the Store Sales Price Elasticity Promotions dataset."

/-- The `hasSystemMessage` scan of `formatAgentMessages`. -/
def hasSystemMessage (msgs : List Message) : Bool :=
  msgs.any Message.isSystem

/-- `formatAgentMessages`: a bare string becomes a single user message; a
message list passes through; if no system message is present anywhere, the
default system prompt is prepended. -/
def formatAgentMessages (input : AgentInput) : List Message :=
  let openaiMessages :=
    match input with
    | .ofString s => [Message.user s]
    | .ofMessages msgs => msgs
  if hasSystemMessage openaiMessages then openaiMessages
  else Message.system systemPrompt :: openaiMessages

/-
--------------------------------------------------------------
Tool-call argument deserialization (encoding/json semantics of
json.Unmarshal into the toolFunctionArgs struct, agent.go)
--------------------------------------------------------------
-/

/-- The `toolFunctionArgs` struct: three string fields tagged
`data`, `prompt`, `visualizationGoal`. -/
structure ToolFunctionArgs where
  data : String
  prompt : String
  visualizationGoal : String
deriving DecidableEq, Repr

def emptyToolFunctionArgs : ToolFunctionArgs := ⟨"", "", ""⟩

/-- Keys of `toolFunctionArgs` that `json.Unmarshal` recognizes. -/
def toolArgKeys : List String := ["data", "prompt", "visualizationGoal"]

/-- The ASCII case folding encoding/json applies to field names. -/
def foldKey (s : String) : String := String.mk (s.toList.map Char.toLower)

/-- encoding/json matches an incoming object key against a struct field
name (or its tag), preferring an exact match but also accepting a
case-insensitive one; with field names that stay distinct under folding
this is exactly case-insensitive equality. -/
def keyMatches (k field : String) : Bool := decide (foldKey k = foldKey field)

/-- Whether an incoming key matches some field of `toolFunctionArgs`. -/
def matchesToolArgKey (k : String) : Bool := toolArgKeys.any (keyMatches k)

/-- Decoding of the fields of a JSON object into `toolFunctionArgs`,
following encoding/json: keys are matched case-insensitively, later
duplicate keys win, unmatched keys are ignored, `null` leaves a field
untouched, a non-string value for a matched key records an error (the
first such error is reported) while decoding continues. -/
def decodeArgsLoop : List (String × Json) → ToolFunctionArgs → Option String →
    ToolFunctionArgs × Option String
  | [], acc, err => (acc, err)
  | (k, v) :: rest, acc, err =>
    if matchesToolArgKey k then
      match v with
      | .str s =>
        let acc :=
          if keyMatches k "data" then { acc with data := s }
          else if keyMatches k "prompt" then { acc with prompt := s }
          else { acc with visualizationGoal := s }
        decodeArgsLoop rest acc err
      | .null => decodeArgsLoop rest acc err
      | _ =>
        decodeArgsLoop rest acc
          (err.getD ("json: cannot unmarshal value into field " ++ k) |> some)
    else decodeArgsLoop rest acc err

/-- `json.Unmarshal(toolCall.Function.Arguments, &functionArgs)`.  The raw
argument string is modelled by its parse result: `none` for syntactically
malformed JSON.  A top-level `null` is a no-op for the struct; any other
non-object document is a type error. -/
def goUnmarshalArgs : Option Json → Except String ToolFunctionArgs
  | none => .error "invalid JSON payload"
  | some .null => .ok emptyToolFunctionArgs
  | some (.obj fields) =>
    match decodeArgsLoop fields emptyToolFunctionArgs none with
    | (args, none) => .ok args
    | (_, some e) => .error e
  | some _ => .error "json: cannot unmarshal value into toolFunctionArgs"

/-- The string held by the last `str`-valued occurrence of a key matching
(case-insensitively) `key` among the fields (the value encoding/json
leaves in a string field), or `dflt`. -/
def lastStringValue : List (String × Json) → String → String → String
  | [], _, dflt => dflt
  | (k, .str s) :: rest, key, dflt =>
    if keyMatches k key then lastStringValue rest key s else lastStringValue rest key dflt
  | _ :: rest, key, dflt => lastStringValue rest key dflt

/-- A field that makes `json.Unmarshal` report an error for
`toolFunctionArgs`: a key matching a recognized field bound to a value
that is neither a string nor `null`. -/
def badArgField (kv : String × Json) : Bool :=
  matchesToolArgKey kv.1 && !(kv.2.isStr || kv.2.isNull)

/-- Characterization of the argument payloads `json.Unmarshal` rejects. -/
def badArgsPayload : Option Json → Bool
  | none => true
  | some .null => false
  | some (.obj fields) => fields.any badArgField
  | some _ => true

/-
--------------------------------------------------------------
Tools (package tools, tools.go); external collaborators (the
DuckDB database and the completion endpoint) are oracles
--------------------------------------------------------------
-/

def openaiModel : String := "gpt-4o-mini"
def tableName : String := "sales"
def lookUpFuncName : String := "LookUpSalesData"
def analyzeFuncName : String := "AnalyzeSalesData"
def visualizeFuncName : String := "GenerateVisualization"

/-- `strings.Trim`: remove every leading and trailing character contained
in the cutset. -/
def dropWhileMem (cut : List Char) : List Char → List Char
  | [] => []
  | c :: rest => if c ∈ cut then dropWhileMem cut rest else c :: rest

def trimChars (s : String) (cut : List Char) : String :=
  String.mk ((dropWhileMem cut ((dropWhileMem cut s.toList).reverse)).reverse)

def sqlGenerationPrompt (prompt cols tbl : String) : String :=
  "\nGenerate an SQL query based on a prompt. Do not reply with anything besides the SQL query.\nThe prompt is:\n"
    ++ prompt ++ "\n\nThe available columns are: " ++ cols
    ++ "\nThe table name is: " ++ tbl ++ "\n"

def dataAnalysisPrompt (data question : String) : String :=
  "\nAnalyze the following data: " ++ data
    ++ "\nYour job is to answer the following question: " ++ question ++ "\n"

def chartConfigPrompt (data goal : String) : String :=
  "\nGenerate a chart configuration based on this data: " ++ data
    ++ "\nThe goal is to show: " ++ goal ++ "\n"

structure VisualizationConfig where
  chartType : String
  xAxis : String
  yAxis : String
  title : String
deriving DecidableEq, Repr

structure VisualizationConfigData where
  config : VisualizationConfig
  data : String
deriving DecidableEq, Repr

/-- Abstract rendering of Go's `%+v` for the config passed into the
chart-code prompt. -/
def renderVisualizationConfigData (c : VisualizationConfigData) : String :=
  "\x7bConfig:\x7bChartType:" ++ c.config.chartType ++ " XAxis:" ++ c.config.xAxis
    ++ " YAxis:" ++ c.config.yAxis ++ " Title:" ++ c.config.title
    ++ "\x7d Data:" ++ c.data ++ "\x7d"

def createChartPrompt (c : VisualizationConfigData) : String :=
  "\nWrtie python code to create a chart based on the following configuration.\nOnly return the code, no other text.\nconfig: "
    ++ renderVisualizationConfigData c ++ "\n"

/-- External collaborators of `LookUpSalesData`: the DuckDB calls and the
SQL-generating completion call, each an oracle that either yields a value
or fails with an error message. -/
structure LookUpEnv where
  openDb : Except String Unit
  createTable : Except String Unit
  probeQuery : Except String Unit
  probeColumns : Except String (List String)
  genSqlLlm : String → Except String String
  runQuery : String → Except String Unit
  rowsColumns : String → Except String (List String)
  extractRows : String → Except String (List String)

/-- External collaborator of `AnalyzeSalesData`: the completion call. -/
structure AnalyzeEnv where
  llm : String → Except String String

/-- External collaborators of `GenerateVisualization`: the structured
chart-config completion (its textual answer modelled by its JSON parse
after block cleanup) and the chart-code completion. -/
structure VisualizeEnv where
  chartConfigLlm : String → Except String (Option Json)
  createChartLlm : String → Except String String

structure ToolEnv where
  lookUp : LookUpEnv
  analyze : AnalyzeEnv
  visualize : VisualizeEnv

/-- `generateSqlQuery`: format the SQL-generation prompt and ask the
completion endpoint. -/
def generateSqlQuery (env : LookUpEnv) (prompt : String) (columns : List String)
    (tbl : String) : Except String String :=
  env.genSqlLlm (sqlGenerationPrompt prompt (String.intercalate ", " columns) tbl)

/-- The failure strings `LookUpSalesData` folds collaborator errors into
(`fmt.Sprintf("Failed to ...: %s\n", err)` in the source). -/
def failOpenDbMsg (e : String) : String := "Failed to open Database: " ++ e ++ "\n"
def failCreateTableMsg (e : String) : String := "Failed to execute table creation SQL: " ++ e ++ "\n"
def failDbColumnsMsg (e : String) : String := "Failed to fetch database columns: " ++ e ++ "\n"
def failGenSqlMsg (e : String) : String := "Failed to generate SQL query: " ++ e ++ "\n"
def failSelectMsg (e : String) : String := "Failed to select data from database: " ++ e ++ "\n"
def failRowsColumnsMsg (e : String) : String := "Failed to fetch query result columns: " ++ e ++ "\n"
def failExtractMsg (e : String) : String := "Failed to extract data from columns: " ++ e ++ "\n"

/-- The cleanup applied to the generated SQL before running it:
`strings.Trim(s, "\n ")`, drop every "```sql", `strings.Trim(s, "`")`. -/
def cleanSqlQuery (raw : String) : String :=
  trimChars ((trimChars raw ['\n', ' ']).replace "```sql" "") ['`']

/-- The table string built from the query results: header line of column
names, then one line per extracted row. -/
def lookUpTable (columns rows : List String) : String :=
  String.intercalate "\n" (String.intercalate ", " columns :: rows)

/-- `LookUpSalesData` (tools.go): opens its span from the background
context (a root span with no openinference kind attribute), then walks
the database/completion pipeline; every collaborator failure is folded
into a descriptive failure string returned as the tool result, with the
span marked error; the span always ends (deferred). -/
def LookUpSalesData (env : LookUpEnv) (prompt : String) (st : TraceState) :
    String × TraceState :=
  let (sid, st) := startRawSpan "LookUpTool" st
  let st := setSpanAttr st sid "ai.model" (.str openaiModel)
  let st := setSpanAttr st sid "ai.input" (.str prompt)
  match env.openDb with
  | .error e => (failOpenDbMsg e, endSpan (setSpanStatus st sid .error) sid)
  | .ok _ =>
  match env.createTable with
  | .error e => (failCreateTableMsg e, endSpan (setSpanStatus st sid .error) sid)
  | .ok _ =>
  match env.probeQuery with
  | .error e => (failDbColumnsMsg e, endSpan (setSpanStatus st sid .error) sid)
  | .ok _ =>
  match env.probeColumns with
  | .error e => (failDbColumnsMsg e, endSpan (setSpanStatus st sid .error) sid)
  | .ok columns =>
  match generateSqlQuery env prompt columns tableName with
  | .error e => (failGenSqlMsg e, endSpan (setSpanStatus st sid .error) sid)
  | .ok rawSql =>
  let sqlQuery := cleanSqlQuery rawSql
  match env.runQuery sqlQuery with
  | .error e => (failSelectMsg e, endSpan (setSpanStatus st sid .error) sid)
  | .ok _ =>
  match env.rowsColumns sqlQuery with
  | .error e => (failRowsColumnsMsg e, endSpan (setSpanStatus st sid .error) sid)
  | .ok columns2 =>
  match env.extractRows sqlQuery with
  | .error e => (failExtractMsg e, endSpan (setSpanStatus st sid .error) sid)
  | .ok extracted =>
  let returnValue := lookUpTable columns2 extracted
  let st := setSpanAttr st sid "ai.output" (.str returnValue)
  let st := setSpanStatus st sid .ok
  (returnValue, endSpan st sid)

/-- The result string of `LookUpSalesData` alone (it does not depend on
the trace state). -/
def lookUpResult (env : LookUpEnv) (prompt : String) : String :=
  match env.openDb with
  | .error e => failOpenDbMsg e
  | .ok _ =>
  match env.createTable with
  | .error e => failCreateTableMsg e
  | .ok _ =>
  match env.probeQuery with
  | .error e => failDbColumnsMsg e
  | .ok _ =>
  match env.probeColumns with
  | .error e => failDbColumnsMsg e
  | .ok columns =>
  match generateSqlQuery env prompt columns tableName with
  | .error e => failGenSqlMsg e
  | .ok rawSql =>
  let sqlQuery := cleanSqlQuery rawSql
  match env.runQuery sqlQuery with
  | .error e => failSelectMsg e
  | .ok _ =>
  match env.rowsColumns sqlQuery with
  | .error e => failRowsColumnsMsg e
  | .ok columns2 =>
  match env.extractRows sqlQuery with
  | .error e => failExtractMsg e
  | .ok extracted => lookUpTable columns2 extracted

def noAnalysisMsg : String := "No analysis could be generated"

/-- `AnalyzeSalesData` (tools.go): a completion failure or an empty
(trimmed) answer yields the fixed failure string and an error status;
otherwise the trimmed answer with an ok status. -/
def AnalyzeSalesData (env : AnalyzeEnv) (prompt data : String) (st : TraceState) :
    String × TraceState :=
  let formatedPrompt := dataAnalysisPrompt data prompt
  let (sid, st) := startRawSpan "AnalyzeTool" st
  let st := setSpanAttr st sid "ai.model" (.str openaiModel)
  let st := setSpanAttr st sid "ai.input" (.str formatedPrompt)
  let finalAnalysis :=
    match env.llm formatedPrompt with
    | .error _ => ""
    | .ok content => trimChars content ['\n', ' ']
  if finalAnalysis = "" then
    (noAnalysisMsg, endSpan (setSpanStatus st sid .error) sid)
  else
    (finalAnalysis, endSpan (setSpanStatus st sid .ok) sid)

def analyzeResult (env : AnalyzeEnv) (prompt data : String) : String :=
  let finalAnalysis :=
    match env.llm (dataAnalysisPrompt data prompt) with
    | .error _ => ""
    | .ok content => trimChars content ['\n', ' ']
  if finalAnalysis = "" then noAnalysisMsg else finalAnalysis

/-- Keys of the `visualizationConfig` struct. -/
def visualizationConfigKeys : List String := ["chartType", "xAxis", "yAxis", "title"]

/-- encoding/json decoding of a JSON object into `visualizationConfig`
(same semantics as for `toolFunctionArgs`). -/
def decodeVisLoop : List (String × Json) → VisualizationConfig → Option String →
    VisualizationConfig × Option String
  | [], acc, err => (acc, err)
  | (k, v) :: rest, acc, err =>
    if visualizationConfigKeys.any (keyMatches k) then
      match v with
      | .str s =>
        let acc :=
          if keyMatches k "chartType" then { acc with chartType := s }
          else if keyMatches k "xAxis" then { acc with xAxis := s }
          else if keyMatches k "yAxis" then { acc with yAxis := s }
          else { acc with title := s }
        decodeVisLoop rest acc err
      | .null => decodeVisLoop rest acc err
      | _ =>
        decodeVisLoop rest acc
          (err.getD ("json: cannot unmarshal value into field " ++ k) |> some)
    else decodeVisLoop rest acc err

def goUnmarshalVisualizationConfig (payload : Option Json)
    (zero : VisualizationConfig) : Except String VisualizationConfig :=
  match payload with
  | none => .error "invalid JSON payload"
  | some .null => .ok zero
  | some (.obj fields) =>
    match decodeVisLoop fields zero none with
    | (cfg, none) => .ok cfg
    | (_, some e) => .error e
  | some _ => .error "json: cannot unmarshal value into visualizationConfig"

/-- `extractChartConfig` (tools.go): defaults, overwritten by the
structured-output completion when it answers with JSON that unmarshals. -/
def extractChartConfig (env : VisualizeEnv) (data visualizationGoal : String) :
    VisualizationConfigData :=
  let returnValue : VisualizationConfigData :=
    ⟨⟨"line", "date", "value", visualizationGoal⟩, data⟩
  match env.chartConfigLlm (chartConfigPrompt data visualizationGoal) with
  | .error _ => returnValue
  | .ok parsed =>
    match goUnmarshalVisualizationConfig parsed ⟨"", "", "", ""⟩ with
    | .error _ => returnValue
    | .ok vconf => { returnValue with config := vconf }

/-- `createChart` (tools.go): completion failure yields the empty string;
otherwise the answer with python code fences stripped. -/
def createChart (env : VisualizeEnv) (config : VisualizationConfigData) : String :=
  match env.createChartLlm (createChartPrompt config) with
  | .error _ => ""
  | .ok content => trimChars (content.replace "```python" "") ['`', '\n', ' ']

def visualizeResult (env : VisualizeEnv) (data visualizationGoal : String) : String :=
  createChart env (extractChartConfig env data visualizationGoal)

/-- `GenerateVisualization` (tools.go): also a root span with no
openinference kind attribute; always marked ok. -/
def GenerateVisualization (env : VisualizeEnv) (data visualizationGoal : String)
    (st : TraceState) : String × TraceState :=
  let (sid, st) := startRawSpan "VisualizationTool" st
  let st := setSpanAttr st sid "ai.model" (.str openaiModel)
  let st := setSpanAttr st sid "ai.input" (.strList [data, visualizationGoal])
  let code := visualizeResult env data visualizationGoal
  let st := setSpanAttr st sid "ai.output" (.str code)
  let st := setSpanStatus st sid .ok
  (code, endSpan st sid)

/-
--------------------------------------------------------------
Tool dispatcher (handleToolCalls, agent.go)
--------------------------------------------------------------
-/

/-- The fixed, closed set of tool identifiers the dispatcher knows. -/
def knownToolName (name : String) : Bool :=
  name = lookUpFuncName || name = analyzeFuncName || name = visualizeFuncName

/-- The `switch functionName` dispatch: `none` models the `default` branch
(unknown tool name). -/
def execToolByName (env : ToolEnv) (name : String) (fa : ToolFunctionArgs)
    (st : TraceState) : Option (String × TraceState) :=
  if name = lookUpFuncName then some (LookUpSalesData env.lookUp fa.prompt st)
  else if name = analyzeFuncName then some (AnalyzeSalesData env.analyze fa.prompt fa.data st)
  else if name = visualizeFuncName then some (GenerateVisualization env.visualize fa.data fa.visualizationGoal st)
  else none

/-- The result string the dispatcher obtains for one (well-formed) call. -/
def toolResult (env : ToolEnv) (c : ToolCall) : String :=
  let fa := (goUnmarshalArgs c.arguments).toOption.getD emptyToolFunctionArgs
  if c.name = lookUpFuncName then lookUpResult env.lookUp fa.prompt
  else if c.name = analyzeFuncName then analyzeResult env.analyze fa.prompt fa.data
  else visualizeResult env.visualize fa.data fa.visualizationGoal

/-- The per-call loop of `handleToolCalls`.  `sid` is the
"HandleToolCalls" span.  A `json.Unmarshal` failure or an unknown tool
name is a `log.Panic`: the span is marked error, the deferred end runs,
and the panic propagates as `Except.error` (carrying the trace state). -/
def handleLoop (env : ToolEnv) (sid : Nat) :
    List ToolCall → List Message → List String → List String → TraceState →
    Except (String × TraceState) (List Message × List String × List String × TraceState)
  | [], messages, inputAttr, outputAttr, st => .ok (messages, inputAttr, outputAttr, st)
  | toolCall :: rest, messages, inputAttr, outputAttr, st =>
    let inputAttr := inputAttr ++ [toolCall.rawJson]
    match goUnmarshalArgs toolCall.arguments with
    | .error e => .error (e, endSpan (setSpanStatus st sid .error) sid)
    | .ok functionArgs =>
      match execToolByName env toolCall.name functionArgs st with
      | none => .error ("Invalid function name", endSpan (setSpanStatus st sid .error) sid)
      | some (result, st) =>
        handleLoop env sid rest (messages ++ [Message.tool toolCall.id result])
          inputAttr (outputAttr ++ [result]) st

/-- `handleToolCalls` (agent.go): opens the chain-kind "HandleToolCalls"
span under the last router context, publishes its context in the
`HandleToolContext` slot, dispatches every call in order appending one
tool message each, then records attributes and marks the span ok. -/
def handleToolCalls (env : ToolEnv) (toolCalls : List ToolCall)
    (messages : List Message) (st : TraceState) :
    Except (String × TraceState) (List Message × TraceState) :=
  let (sid, st) := startOpenInferenceSpan "HandleToolCalls" chainKind st.lastRouterContext st
  let st := { st with handleToolContext := some sid }
  match handleLoop env sid toolCalls messages [] [] st with
  | .error e => .error e
  | .ok (messages, inputAttr, outputAttr, st) =>
    let st := setSpanAttr st sid openInferenceInputKey (.strList inputAttr)
    let st := setSpanAttr st sid openInferenceOutputKey (.strList outputAttr)
    let st := setSpanAttr st sid "llm.model_name" (.str openaiModel)
    let st := setSpanStatus st sid .ok
    .ok (messages, endSpan st sid)

/-
--------------------------------------------------------------
Router loop (RunAgent, agent.go) and the run-level span
(startMainSpan, main.go)
--------------------------------------------------------------
-/

/-- One response of the completion endpoint: either a transport/API error
or a message with content and requested tool calls. -/
structure CompletionResponse where
  content : String
  toolCalls : List ToolCall

abbrev CompletionResult := Except String CompletionResponse

/-- How a run finishes.  `done`/`transportError` are `RunAgent`'s normal
`(string, error)` returns; `panicked` is a propagating `log.Panic`;
`outOfResponses` is a model artifact marking a run longer than the
supplied response stream. -/
inductive AgentOutcome where
  | done (answer : String) : AgentOutcome
  | transportError (e : String) : AgentOutcome
  | panicked (e : String) : AgentOutcome
  | outOfResponses : AgentOutcome
deriving DecidableEq, Repr

/-- Abstract rendering of `openai.F(message).String()` (span attribute
value only). -/
def renderMessage : Message → String
  | .system c => "system: " ++ c
  | .user c => "user: " ++ c
  | .assistant c _ => "assistant: " ++ c
  | .tool id c => "tool(" ++ id ++ "): " ++ c

/-- The `for` loop of `RunAgent`.  Each iteration opens a chain-kind
"RouterCall" span under the agent context and publishes it in the
`LastRouterContext` slot; its deferred end (like all earlier router
spans' — the source defers inside the loop) runs only when the function
returns, which `pending` tracks. -/
def runAgentLoop (env : ToolEnv) :
    List CompletionResult → List Message → List Nat → TraceState →
    AgentOutcome × TraceState
  | [], _, pending, st => (.outOfResponses, endAllSpans st pending)
  | response :: rest, openaiMessages, pending, st =>
    let (sid, st) := startOpenInferenceSpan "RouterCall" chainKind st.agentContext st
    let st := { st with lastRouterContext := some sid }
    let inputMessage := renderMessage (openaiMessages.getLastD (Message.user ""))
    let st := setSpanAttr st sid openInferenceInputKey (.str inputMessage)
    let st := setSpanAttr st sid "llm.model_name" (.str openaiModel)
    match response with
    | .error err =>
      let st := setSpanStatus st sid .error
      (.transportError err, endAllSpans st (sid :: pending))
    | .ok responseMessage =>
      let openaiMessages :=
        openaiMessages ++ [Message.assistant responseMessage.content responseMessage.toolCalls]
      let toolCalls := responseMessage.toolCalls
      let rawJsonToolCalls := toolCalls.map ToolCall.rawJson
      let st := setSpanStatus st sid .ok
      if toolCalls.length ≠ 0 then
        let st := setSpanAttr st sid openInferenceOutputKey (.strList rawJsonToolCalls)
        match handleToolCalls env toolCalls openaiMessages st with
        | .error (e, st) => (.panicked e, endAllSpans st (sid :: pending))
        | .ok (openaiMessages, st) => runAgentLoop env rest openaiMessages (sid :: pending) st
      else
        let st := setSpanAttr st sid openInferenceOutputKey (.str responseMessage.content)
        (.done responseMessage.content, endAllSpans st (sid :: pending))

/-- `RunAgent` (agent.go).  The tool catalog (`loadToolsJson` /
`convertToolConfigToParams`) only parameterizes the external completion
endpoint, which the response stream models, so it does not appear here. -/
def RunAgent (env : ToolEnv) (responses : List CompletionResult)
    (input : AgentInput) (st : TraceState) : AgentOutcome × TraceState :=
  runAgentLoop env responses (formatAgentMessages input) [] st

/-- `startMainSpan` (main.go): opens the agent-kind run-level span as a
new root, publishes it in the `AgentContext` slot, runs the agent, stores
the (possibly empty) result as output, sets error/ok status, and always
ends the span (deferred — it also runs when a panic unwinds through). -/
def startMainSpan (env : ToolEnv) (responses : List CompletionResult)
    (prompt : String) (st : TraceState) : AgentOutcome × TraceState :=
  let (sid, st) := startOpenInferenceSpan "AgentRun" agentKind none st
  let st := { st with agentContext := some sid }
  let st := setSpanAttr st sid openInferenceInputKey (.str prompt)
  let st := setSpanAttr st sid "llm.model_name" (.str openaiModel)
  match RunAgent env responses (.ofString prompt) st with
  | (.done result, st) =>
    let st := setSpanAttr st sid openInferenceOutputKey (.str result)
    let st := setSpanStatus st sid .ok
    (.done result, endSpan st sid)
  | (.transportError e, st) =>
    let st := setSpanAttr st sid openInferenceOutputKey (.str "")
    let st := setSpanStatus st sid .error
    (.transportError e, endSpan st sid)
  | (.panicked e, st) => (.panicked e, endSpan st sid)
  | (.outOfResponses, st) => (.outOfResponses, endSpan st sid)

/-
--------------------------------------------------------------
Concrete scenario environments and runs
--------------------------------------------------------------
-/

/-- A collaborator environment in which every external call succeeds. -/
def okLookUpEnv : LookUpEnv where
  openDb := .ok ()
  createTable := .ok ()
  probeQuery := .ok ()
  probeColumns := .ok ["Store_Number", "SKU_Coded", "Sold_Date", "Total_Sale_Value"]
  genSqlLlm := fun _ => .ok "SELECT * FROM sales"
  runQuery := fun _ => .ok ()
  rowsColumns := fun _ => .ok ["Store_Number", "Total_Sale_Value"]
  extractRows := fun _ => .ok ["7, 1000", "7, 2000"]

def okToolEnv : ToolEnv where
  lookUp := okLookUpEnv
  analyze := ⟨fun _ => .ok "an analysis"⟩
  visualize := ⟨fun _ => .ok (some (.obj [("chartType", .str "bar")])), fun _ => .ok "print(1)"⟩

def salesQuestion : String := "What were sales for store 7 last week?"

/-- Scenario of §8 of the spec: response 1 requests `LookUpSalesData`,
response 2 (after the tool result) answers "Sales were flat". -/
def scenarioOneToolResponses : List CompletionResult :=
  [.ok ⟨"", [⟨"call_1", lookUpFuncName, some (.obj [("prompt", .str salesQuestion)])⟩]⟩,
   .ok ⟨"Sales were flat", []⟩]

def scenarioOneToolRun : AgentOutcome × TraceState :=
  startMainSpan okToolEnv scenarioOneToolResponses salesQuestion traceInit

/-- A run with one router iteration containing two tool calls, then a
final plain-text answer. -/
def scenarioTwoToolsResponses : List CompletionResult :=
  [.ok ⟨"", [⟨"call_1", lookUpFuncName, some (.obj [("prompt", .str "sales for store 7")])⟩,
             ⟨"call_2", lookUpFuncName, some (.obj [("prompt", .str "sales for store 9")])⟩]⟩,
   .ok ⟨"final answer", []⟩]

def scenarioTwoToolsRun : AgentOutcome × TraceState :=
  startMainSpan okToolEnv scenarioTwoToolsResponses salesQuestion traceInit


/-- A well-formed tool call: its arguments unmarshal and its name is one
of the known tool identifiers. -/
def wellFormedTC (c : ToolCall) : Bool :=
  (goUnmarshalArgs c.arguments).isOk && knownToolName c.name

/-- A collaborator environment whose database cannot even be opened. -/
def failingLookUpEnv : LookUpEnv := { okLookUpEnv with openDb := .error "no database" }

/-- A router iteration the loop passes through: a successful completion
response that requests at least one tool call, all of them well-formed
(so the dispatcher succeeds and the loop reaches the next iteration). -/
def goodIterationB : CompletionResult → Bool
  | .error _ => false
  | .ok resp => decide (resp.toolCalls.length ≠ 0) && resp.toolCalls.all wellFormedTC

/-- A concrete successful tool-call iteration followed by a transport
error: the first response requests one well-formed look-up call. -/
def c5GoodResponses : List CompletionResult :=
  [.ok ⟨"", [⟨"call_1", lookUpFuncName, some (.obj [("prompt", .str "sales for store 7")])⟩]⟩]

/-- Responses after the failing completion call; never consulted. -/
def c5TailResponses : List CompletionResult := [.ok ⟨"never consulted", []⟩]

/-
--------------------------------------------------------------
Helper lemmas
--------------------------------------------------------------
-/

/-- The result string of `LookUpSalesData` does not depend on the trace
state it is given. -/
theorem lookUpSalesData_fst (env : LookUpEnv) (prompt : String) (st : TraceState) :
    (LookUpSalesData env prompt st).1 = lookUpResult env prompt := by
  rcases h1 : env.openDb with e | ⟨⟩
  · simp [LookUpSalesData, lookUpResult, h1]
  rcases h2 : env.createTable with e | ⟨⟩
  · simp [LookUpSalesData, lookUpResult, h1, h2]
  rcases h3 : env.probeQuery with e | ⟨⟩
  · simp [LookUpSalesData, lookUpResult, h1, h2, h3]
  rcases h4 : env.probeColumns with e | columns
  · simp [LookUpSalesData, lookUpResult, h1, h2, h3, h4]
  rcases h5 : generateSqlQuery env prompt columns tableName with e | rawSql
  · simp [LookUpSalesData, lookUpResult, h1, h2, h3, h4, h5]
  rcases h6 : env.runQuery (cleanSqlQuery rawSql) with e | ⟨⟩
  · simp [LookUpSalesData, lookUpResult, h1, h2, h3, h4, h5, h6]
  rcases h7 : env.rowsColumns (cleanSqlQuery rawSql) with e | columns2
  · simp [LookUpSalesData, lookUpResult, h1, h2, h3, h4, h5, h6, h7]
  rcases h8 : env.extractRows (cleanSqlQuery rawSql) with e | extracted
  · simp [LookUpSalesData, lookUpResult, h1, h2, h3, h4, h5, h6, h7, h8]
  · simp [LookUpSalesData, lookUpResult, h1, h2, h3, h4, h5, h6, h7, h8]

theorem analyzeSalesData_fst (env : AnalyzeEnv) (prompt data : String) (st : TraceState) :
    (AnalyzeSalesData env prompt data st).1 = analyzeResult env prompt data := by
  rcases h : env.llm (dataAnalysisPrompt data prompt) with e | content
  · simp [AnalyzeSalesData, analyzeResult, h]
  · simp only [AnalyzeSalesData, analyzeResult, h]
    split <;> rfl

theorem generateVisualization_fst (env : VisualizeEnv) (data goal : String) (st : TraceState) :
    (GenerateVisualization env data goal st).1 = visualizeResult env data goal := rfl

/-- A name outside the known set hits the dispatcher's default branch. -/
theorem execToolByName_unknown (env : ToolEnv) (name : String) (fa : ToolFunctionArgs)
    (st : TraceState) (h : knownToolName name = false) :
    execToolByName env name fa st = none := by
  unfold knownToolName at h
  simp only [Bool.or_eq_false_iff, decide_eq_false_iff_not] at h
  simp [execToolByName, h.1.1, h.1.2, h.2]

/-- A known name executes the matching tool, yielding the state-independent
result string `toolResult`. -/
theorem execToolByName_known (env : ToolEnv) (c : ToolCall) (fa : ToolFunctionArgs)
    (st : TraceState) (hk : knownToolName c.name = true)
    (hu : goUnmarshalArgs c.arguments = .ok fa) :
    ∃ st', execToolByName env c.name fa st = some (toolResult env c, st') := by
  have hfa : (goUnmarshalArgs c.arguments).toOption.getD emptyToolFunctionArgs = fa := by
    rw [hu]; rfl
  by_cases h1 : c.name = lookUpFuncName
  · rcases hp : LookUpSalesData env.lookUp fa.prompt st with ⟨r, st2⟩
    have hr : r = lookUpResult env.lookUp fa.prompt := by
      have hq := lookUpSalesData_fst env.lookUp fa.prompt st
      rw [hp] at hq; exact hq
    refine ⟨st2, ?_⟩
    simp only [execToolByName, toolResult]
    rw [if_pos h1, if_pos h1, hfa, hp, hr]
  · by_cases h2 : c.name = analyzeFuncName
    · rcases hp : AnalyzeSalesData env.analyze fa.prompt fa.data st with ⟨r, st2⟩
      have hr : r = analyzeResult env.analyze fa.prompt fa.data := by
        have hq := analyzeSalesData_fst env.analyze fa.prompt fa.data st
        rw [hp] at hq; exact hq
      refine ⟨st2, ?_⟩
      simp only [execToolByName, toolResult]
      rw [if_neg h1, if_pos h2, if_neg h1, if_pos h2, hfa, hp, hr]
    · have h3 : c.name = visualizeFuncName := by
        unfold knownToolName at hk
        simp only [Bool.or_eq_true, decide_eq_true_eq] at hk
        rcases hk with (h | h) | h
        · exact absurd h h1
        · exact absurd h h2
        · exact h
      rcases hp : GenerateVisualization env.visualize fa.data fa.visualizationGoal st with ⟨r, st2⟩
      have hr : r = visualizeResult env.visualize fa.data fa.visualizationGoal := by
        have hq := generateVisualization_fst env.visualize fa.data fa.visualizationGoal st
        rw [hp] at hq; exact hq
      refine ⟨st2, ?_⟩
      simp only [execToolByName, toolResult]
      rw [if_neg h1, if_neg h2, if_pos h3, if_neg h1, if_neg h2, hfa, hp, hr]

/-- Well-formed call lists run to completion: one tool message appended
per call, in order, carrying that call's id. -/
theorem handleLoop_ok (env : ToolEnv) (sid : Nat) :
    ∀ (toolCalls : List ToolCall) (messages : List Message)
      (inputAttr outputAttr : List String) (st : TraceState),
      (∀ c ∈ toolCalls, wellFormedTC c = true) →
      ∃ inA outA st',
        handleLoop env sid toolCalls messages inputAttr outputAttr st =
          .ok (messages ++ toolCalls.map (fun c => Message.tool c.id (toolResult env c)),
               inA, outA, st')
  | [], messages, inputAttr, outputAttr, st, _ =>
    ⟨inputAttr, outputAttr, st, by simp [handleLoop]⟩
  | c :: rest, messages, inputAttr, outputAttr, st, h => by
    have hc : wellFormedTC c = true := h c (by simp)
    unfold wellFormedTC at hc
    simp only [Bool.and_eq_true] at hc
    obtain ⟨fa, hu⟩ : ∃ fa, goUnmarshalArgs c.arguments = .ok fa := by
      cases hg : goUnmarshalArgs c.arguments with
      | error e => rw [hg] at hc; simp [Except.isOk, Except.toBool] at hc
      | ok fa => exact ⟨fa, rfl⟩
    obtain ⟨st2, hexec⟩ := execToolByName_known env c fa st hc.2 hu
    obtain ⟨inA, outA, st', ih⟩ :=
      handleLoop_ok env sid rest (messages ++ [Message.tool c.id (toolResult env c)])
        (inputAttr ++ [c.rawJson]) (outputAttr ++ [toolResult env c]) st2
        (fun c hmem => h c (by simp [hmem]))
    refine ⟨inA, outA, st', ?_⟩
    unfold handleLoop
    simp only [hu, hexec, ih]
    simp

/-- A call list containing an unknown tool name makes the loop panic. -/
theorem handleLoop_unknown (env : ToolEnv) (sid : Nat) :
    ∀ (toolCalls : List ToolCall) (messages : List Message)
      (inputAttr outputAttr : List String) (st : TraceState),
      (∃ c ∈ toolCalls, knownToolName c.name = false) →
      ∃ e st',
        handleLoop env sid toolCalls messages inputAttr outputAttr st = .error (e, st')
  | [], _, _, _, _, h => by simp at h
  | c :: rest, messages, inputAttr, outputAttr, st, h => by
    cases hg : goUnmarshalArgs c.arguments with
    | error e =>
      exact ⟨e, endSpan (setSpanStatus st sid .error) sid, by
        unfold handleLoop; simp only [hg]⟩
    | ok fa =>
      by_cases hk : knownToolName c.name = true
      · obtain ⟨st2, hexec⟩ := execToolByName_known env c fa st hk hg
        obtain ⟨cbad, hmem, hbad⟩ := h
        have hmem' : cbad ∈ rest := by
          cases hmem with
          | head => rw [hk] at hbad; cases hbad
          | tail _ hm => exact hm
        obtain ⟨e, st', ih⟩ :=
          handleLoop_unknown env sid rest (messages ++ [Message.tool c.id (toolResult env c)])
            (inputAttr ++ [c.rawJson]) (outputAttr ++ [toolResult env c]) st2
            ⟨cbad, hmem', hbad⟩
        refine ⟨e, st', ?_⟩
        unfold handleLoop
        simp only [hg, hexec, ih]
      · have hk' : knownToolName c.name = false := by
          cases hkk : knownToolName c.name with
          | true => exact absurd hkk hk
          | false => rfl
        refine ⟨"Invalid function name", endSpan (setSpanStatus st sid .error) sid, ?_⟩
        unfold handleLoop
        simp only [hg, execToolByName_unknown env c.name fa st hk']

/-- `handleToolCalls` on a well-formed call list: success, with the tool
messages appended in order. -/
theorem handleToolCalls_ok (env : ToolEnv) (toolCalls : List ToolCall)
    (messages : List Message) (st : TraceState)
    (h : ∀ c ∈ toolCalls, wellFormedTC c = true) :
    ∃ st', handleToolCalls env toolCalls messages st =
      .ok (messages ++ toolCalls.map (fun c => Message.tool c.id (toolResult env c)), st') := by
  unfold handleToolCalls
  rcases hs : startOpenInferenceSpan "HandleToolCalls" chainKind st.lastRouterContext st with ⟨sid, st1⟩
  obtain ⟨inA, outA, st', hloop⟩ :=
    handleLoop_ok env sid toolCalls messages [] [] { st1 with handleToolContext := some sid } h
  simp only [hloop]
  exact ⟨_, rfl⟩

/-
--------------------------------------------------------------
Frame lemmas: a trace operation aimed at one span leaves every
other span unchanged, never shrinks the span list, and never
touches the context slots
--------------------------------------------------------------
-/

theorem listSetGetDNe :
    ∀ (l : List Span) (i j : Nat) (a d : Span), j ≠ i → (l.set i a).getD j d = l.getD j d
  | [], _, _, _, _, _ => rfl
  | _ :: _, 0, 0, _, _, h => absurd rfl h
  | _ :: _, 0, _ + 1, _, _, _ => rfl
  | _ :: _, _ + 1, 0, _, _, _ => rfl
  | _ :: xs, i + 1, j + 1, a, d, h =>
    listSetGetDNe xs i j a d (fun hc => h (by rw [hc]))

theorem listSetGetDSelf :
    ∀ (l : List Span) (i : Nat) (a d : Span), i < l.length → (l.set i a).getD i d = a
  | [], _, _, _, h => absurd h (by simp)
  | _ :: _, 0, _, _, _ => rfl
  | _ :: xs, i + 1, a, d, h => listSetGetDSelf xs i a d (Nat.lt_of_succ_lt_succ h)

theorem listAppendGetDLt :
    ∀ (l l2 : List Span) (j : Nat) (d : Span), j < l.length → (l ++ l2).getD j d = l.getD j d
  | [], _, _, _, h => absurd h (by simp)
  | _ :: _, _, 0, _, _ => rfl
  | _ :: xs, l2, j + 1, d, h => listAppendGetDLt xs l2 j d (Nat.lt_of_succ_lt_succ h)

theorem listAppendGetDLen :
    ∀ (l : List Span) (x d : Span), (l ++ [x]).getD l.length d = x
  | [], _, _ => rfl
  | _ :: xs, x, d => listAppendGetDLen xs x d

theorem getSpan_modifySpan_ne (st : TraceState) (i : Nat) (f : Span → Span) (j : Nat)
    (h : j ≠ i) : getSpan (modifySpan st i f) j = getSpan st j :=
  listSetGetDNe st.spans i j (f (getSpan st i)) defaultSpan h

theorem getSpan_modifySpan_self (st : TraceState) (i : Nat) (f : Span → Span)
    (h : i < st.spans.length) : getSpan (modifySpan st i f) i = f (getSpan st i) :=
  listSetGetDSelf st.spans i (f (getSpan st i)) defaultSpan h

theorem getSpan_setSpanAttr_ne (st : TraceState) (i : Nat) (k : String) (v : AttrValue)
    (j : Nat) (h : j ≠ i) : getSpan (setSpanAttr st i k v) j = getSpan st j :=
  getSpan_modifySpan_ne st i _ j h

theorem getSpan_setSpanStatus_ne (st : TraceState) (i : Nat) (c : SpanStatus)
    (j : Nat) (h : j ≠ i) : getSpan (setSpanStatus st i c) j = getSpan st j :=
  getSpan_modifySpan_ne st i _ j h

theorem getSpan_endSpan_ne (st : TraceState) (i j : Nat) (h : j ≠ i) :
    getSpan (endSpan st i) j = getSpan st j :=
  getSpan_modifySpan_ne st i _ j h

theorem getSpan_setSpanAttr_self (st : TraceState) (i : Nat) (k : String) (v : AttrValue)
    (hlt : i < st.spans.length) (hend : (getSpan st i).ended = false) :
    getSpan (setSpanAttr st i k v) i =
      { getSpan st i with attrs := (getSpan st i).attrs ++ [(k, v)] } := by
  unfold setSpanAttr
  rw [getSpan_modifySpan_self st i _ hlt]
  simp [hend]

theorem getSpan_setSpanStatus_self_unset (st : TraceState) (i : Nat) (c : SpanStatus)
    (hlt : i < st.spans.length) (hend : (getSpan st i).ended = false)
    (hst : (getSpan st i).status = .unset) :
    getSpan (setSpanStatus st i c) i = { getSpan st i with status := c } := by
  unfold setSpanStatus
  rw [getSpan_modifySpan_self st i _ hlt]
  simp [hend, hst, SpanStatus.priority]

theorem getSpan_endSpan_self (st : TraceState) (i : Nat)
    (hlt : i < st.spans.length) (hend : (getSpan st i).ended = false) :
    getSpan (endSpan st i) i = { getSpan st i with ended := true } := by
  unfold endSpan
  rw [getSpan_modifySpan_self st i _ hlt]
  simp [hend]

theorem spansLength_modifySpan (st : TraceState) (i : Nat) (f : Span → Span) :
    (modifySpan st i f).spans.length = st.spans.length := by
  simp [modifySpan]

theorem spansLength_setSpanAttr (st : TraceState) (i : Nat) (k : String) (v : AttrValue) :
    (setSpanAttr st i k v).spans.length = st.spans.length :=
  spansLength_modifySpan st i _

theorem spansLength_setSpanStatus (st : TraceState) (i : Nat) (c : SpanStatus) :
    (setSpanStatus st i c).spans.length = st.spans.length :=
  spansLength_modifySpan st i _

theorem spansLength_endSpan (st : TraceState) (i : Nat) :
    (endSpan st i).spans.length = st.spans.length :=
  spansLength_modifySpan st i _

theorem endAllSpans_cons (st : TraceState) (i : Nat) (ids : List Nat) :
    endAllSpans st (i :: ids) = endAllSpans (endSpan st i) ids := rfl

theorem spansLength_endAllSpans :
    ∀ (ids : List Nat) (st : TraceState), (endAllSpans st ids).spans.length = st.spans.length
  | [], _ => rfl
  | i :: ids, st =>
    (spansLength_endAllSpans ids (endSpan st i)).trans (spansLength_endSpan st i)

theorem getSpan_endAllSpans_not_mem :
    ∀ (ids : List Nat) (st : TraceState) (j : Nat), j ∉ ids →
      getSpan (endAllSpans st ids) j = getSpan st j
  | [], _, _, _ => rfl
  | i :: ids, st, j, h => by
    rw [endAllSpans_cons,
      getSpan_endAllSpans_not_mem ids (endSpan st i) j
        (fun hm => h (List.mem_cons_of_mem i hm))]
    exact getSpan_endSpan_ne st i j (fun hc => h (hc ▸ List.mem_cons_self i ids))

theorem endAllSpans_lastRouter :
    ∀ (ids : List Nat) (st : TraceState),
      (endAllSpans st ids).lastRouterContext = st.lastRouterContext
  | [], _ => rfl
  | i :: ids, st => endAllSpans_lastRouter ids (endSpan st i)

/-- `getSpan` only reads the span list. -/
theorem getSpan_eq_getD (st : TraceState) (j : Nat) :
    getSpan st j = st.spans.getD j defaultSpan := rfl

/-- The tool span of `LookUpSalesData` is the only span it touches. -/
theorem lookUpSalesData_frame (env : LookUpEnv) (p : String) (st : TraceState) (j : Nat)
    (hj : j < st.spans.length) :
    getSpan ((LookUpSalesData env p st).2) j = getSpan st j := by
  have hne : j ≠ st.spans.length := Nat.ne_of_lt hj
  have hbase : getSpan { st with spans := st.spans ++
      [(⟨"LookUpTool", none, [], .unset, false⟩ : Span)] } j = getSpan st j := by
    simp only [getSpan_eq_getD]
    exact listAppendGetDLt st.spans _ j defaultSpan hj
  rcases h1 : env.openDb with e | ⟨⟩
  · simp [LookUpSalesData, h1, startRawSpan, startSpan, getSpan_endSpan_ne,
      getSpan_setSpanStatus_ne, getSpan_setSpanAttr_ne, hne, hbase]
  rcases h2 : env.createTable with e | ⟨⟩
  · simp [LookUpSalesData, h1, h2, startRawSpan, startSpan, getSpan_endSpan_ne,
      getSpan_setSpanStatus_ne, getSpan_setSpanAttr_ne, hne, hbase]
  rcases h3 : env.probeQuery with e | ⟨⟩
  · simp [LookUpSalesData, h1, h2, h3, startRawSpan, startSpan, getSpan_endSpan_ne,
      getSpan_setSpanStatus_ne, getSpan_setSpanAttr_ne, hne, hbase]
  rcases h4 : env.probeColumns with e | columns
  · simp [LookUpSalesData, h1, h2, h3, h4, startRawSpan, startSpan, getSpan_endSpan_ne,
      getSpan_setSpanStatus_ne, getSpan_setSpanAttr_ne, hne, hbase]
  rcases h5 : generateSqlQuery env p columns tableName with e | rawSql
  · simp [LookUpSalesData, h1, h2, h3, h4, h5, startRawSpan, startSpan, getSpan_endSpan_ne,
      getSpan_setSpanStatus_ne, getSpan_setSpanAttr_ne, hne, hbase]
  rcases h6 : env.runQuery (cleanSqlQuery rawSql) with e | ⟨⟩
  · simp [LookUpSalesData, h1, h2, h3, h4, h5, h6, startRawSpan, startSpan, getSpan_endSpan_ne,
      getSpan_setSpanStatus_ne, getSpan_setSpanAttr_ne, hne, hbase]
  rcases h7 : env.rowsColumns (cleanSqlQuery rawSql) with e | columns2
  · simp [LookUpSalesData, h1, h2, h3, h4, h5, h6, h7, startRawSpan, startSpan,
      getSpan_endSpan_ne, getSpan_setSpanStatus_ne, getSpan_setSpanAttr_ne, hne, hbase]
  rcases h8 : env.extractRows (cleanSqlQuery rawSql) with e | extracted
  · simp [LookUpSalesData, h1, h2, h3, h4, h5, h6, h7, h8, startRawSpan, startSpan,
      getSpan_endSpan_ne, getSpan_setSpanStatus_ne, getSpan_setSpanAttr_ne, hne, hbase]
  · simp [LookUpSalesData, h1, h2, h3, h4, h5, h6, h7, h8, startRawSpan, startSpan,
      getSpan_endSpan_ne, getSpan_setSpanStatus_ne, getSpan_setSpanAttr_ne, hne, hbase]

theorem lookUpSalesData_length (env : LookUpEnv) (p : String) (st : TraceState) :
    (LookUpSalesData env p st).2.spans.length = st.spans.length + 1 := by
  rcases h1 : env.openDb with e | ⟨⟩
  · simp [LookUpSalesData, h1, startRawSpan, startSpan, spansLength_endSpan,
      spansLength_setSpanStatus, spansLength_setSpanAttr]
  rcases h2 : env.createTable with e | ⟨⟩
  · simp [LookUpSalesData, h1, h2, startRawSpan, startSpan, spansLength_endSpan,
      spansLength_setSpanStatus, spansLength_setSpanAttr]
  rcases h3 : env.probeQuery with e | ⟨⟩
  · simp [LookUpSalesData, h1, h2, h3, startRawSpan, startSpan, spansLength_endSpan,
      spansLength_setSpanStatus, spansLength_setSpanAttr]
  rcases h4 : env.probeColumns with e | columns
  · simp [LookUpSalesData, h1, h2, h3, h4, startRawSpan, startSpan, spansLength_endSpan,
      spansLength_setSpanStatus, spansLength_setSpanAttr]
  rcases h5 : generateSqlQuery env p columns tableName with e | rawSql
  · simp [LookUpSalesData, h1, h2, h3, h4, h5, startRawSpan, startSpan, spansLength_endSpan,
      spansLength_setSpanStatus, spansLength_setSpanAttr]
  rcases h6 : env.runQuery (cleanSqlQuery rawSql) with e | ⟨⟩
  · simp [LookUpSalesData, h1, h2, h3, h4, h5, h6, startRawSpan, startSpan,
      spansLength_endSpan, spansLength_setSpanStatus, spansLength_setSpanAttr]
  rcases h7 : env.rowsColumns (cleanSqlQuery rawSql) with e | columns2
  · simp [LookUpSalesData, h1, h2, h3, h4, h5, h6, h7, startRawSpan, startSpan,
      spansLength_endSpan, spansLength_setSpanStatus, spansLength_setSpanAttr]
  rcases h8 : env.extractRows (cleanSqlQuery rawSql) with e | extracted
  · simp [LookUpSalesData, h1, h2, h3, h4, h5, h6, h7, h8, startRawSpan, startSpan,
      spansLength_endSpan, spansLength_setSpanStatus, spansLength_setSpanAttr]
  · simp [LookUpSalesData, h1, h2, h3, h4, h5, h6, h7, h8, startRawSpan, startSpan,
      spansLength_endSpan, spansLength_setSpanStatus, spansLength_setSpanAttr]

theorem analyzeSalesData_frame (env : AnalyzeEnv) (p d : String) (st : TraceState) (j : Nat)
    (hj : j < st.spans.length) :
    getSpan ((AnalyzeSalesData env p d st).2) j = getSpan st j := by
  have hne : j ≠ st.spans.length := Nat.ne_of_lt hj
  have hbase : getSpan { st with spans := st.spans ++
      [(⟨"AnalyzeTool", none, [], .unset, false⟩ : Span)] } j = getSpan st j := by
    simp only [getSpan_eq_getD]
    exact listAppendGetDLt st.spans _ j defaultSpan hj
  rcases hllm : env.llm (dataAnalysisPrompt d p) with e | content
  · simp [AnalyzeSalesData, hllm, startRawSpan, startSpan, getSpan_endSpan_ne,
      getSpan_setSpanStatus_ne, getSpan_setSpanAttr_ne, hne, hbase]
  · by_cases hemp : trimChars content ['\n', ' '] = "" <;>
      simp [AnalyzeSalesData, hllm, hemp, startRawSpan, startSpan, getSpan_endSpan_ne,
        getSpan_setSpanStatus_ne, getSpan_setSpanAttr_ne, hne, hbase]

theorem analyzeSalesData_length (env : AnalyzeEnv) (p d : String) (st : TraceState) :
    (AnalyzeSalesData env p d st).2.spans.length = st.spans.length + 1 := by
  rcases hllm : env.llm (dataAnalysisPrompt d p) with e | content
  · simp [AnalyzeSalesData, hllm, startRawSpan, startSpan, spansLength_endSpan,
      spansLength_setSpanStatus, spansLength_setSpanAttr]
  · by_cases hemp : trimChars content ['\n', ' '] = "" <;>
      simp [AnalyzeSalesData, hllm, hemp, startRawSpan, startSpan, spansLength_endSpan,
        spansLength_setSpanStatus, spansLength_setSpanAttr]

theorem generateVisualization_frame (env : VisualizeEnv) (d g : String) (st : TraceState)
    (j : Nat) (hj : j < st.spans.length) :
    getSpan ((GenerateVisualization env d g st).2) j = getSpan st j := by
  have hne : j ≠ st.spans.length := Nat.ne_of_lt hj
  have hbase : getSpan { st with spans := st.spans ++
      [(⟨"VisualizationTool", none, [], .unset, false⟩ : Span)] } j = getSpan st j := by
    simp only [getSpan_eq_getD]
    exact listAppendGetDLt st.spans _ j defaultSpan hj
  simp [GenerateVisualization, startRawSpan, startSpan, getSpan_endSpan_ne,
    getSpan_setSpanStatus_ne, getSpan_setSpanAttr_ne, hne, hbase]

theorem generateVisualization_length (env : VisualizeEnv) (d g : String) (st : TraceState) :
    (GenerateVisualization env d g st).2.spans.length = st.spans.length + 1 := by
  simp [GenerateVisualization, startRawSpan, startSpan, spansLength_endSpan,
    spansLength_setSpanStatus, spansLength_setSpanAttr]

theorem execToolByName_frame (env : ToolEnv) (name : String) (fa : ToolFunctionArgs)
    (st : TraceState) (r : String) (st2 : TraceState)
    (h : execToolByName env name fa st = some (r, st2)) :
    (∀ j, j < st.spans.length → getSpan st2 j = getSpan st j) ∧
      st2.spans.length = st.spans.length + 1 := by
  unfold execToolByName at h
  by_cases h1 : name = lookUpFuncName
  · rw [if_pos h1, Option.some.injEq] at h
    have hst : (LookUpSalesData env.lookUp fa.prompt st).2 = st2 := congrArg Prod.snd h
    rw [← hst]
    exact ⟨fun j hj => lookUpSalesData_frame env.lookUp fa.prompt st j hj,
      lookUpSalesData_length env.lookUp fa.prompt st⟩
  · rw [if_neg h1] at h
    by_cases h2 : name = analyzeFuncName
    · rw [if_pos h2, Option.some.injEq] at h
      have hst : (AnalyzeSalesData env.analyze fa.prompt fa.data st).2 = st2 :=
        congrArg Prod.snd h
      rw [← hst]
      exact ⟨fun j hj => analyzeSalesData_frame env.analyze fa.prompt fa.data st j hj,
        analyzeSalesData_length env.analyze fa.prompt fa.data st⟩
    · rw [if_neg h2] at h
      by_cases h3 : name = visualizeFuncName
      · rw [if_pos h3, Option.some.injEq] at h
        have hst : (GenerateVisualization env.visualize fa.data fa.visualizationGoal st).2 = st2 :=
          congrArg Prod.snd h
        rw [← hst]
        exact ⟨fun j hj =>
          generateVisualization_frame env.visualize fa.data fa.visualizationGoal st j hj,
          generateVisualization_length env.visualize fa.data fa.visualizationGoal st⟩
      · rw [if_neg h3] at h
        cases h

theorem handleLoop_frame (env : ToolEnv) (sid : Nat) :
    ∀ (calls : List ToolCall) (msgs : List Message) (inA outA : List String)
      (st : TraceState) (m2 : List Message) (i2 o2 : List String) (st' : TraceState),
      handleLoop env sid calls msgs inA outA st = .ok (m2, i2, o2, st') →
      (∀ j, j < st.spans.length → j ≠ sid → getSpan st' j = getSpan st j) ∧
        st.spans.length ≤ st'.spans.length
  | [], msgs, inA, outA, st, m2, i2, o2, st', h => by
    simp only [handleLoop, Except.ok.injEq, Prod.mk.injEq] at h
    obtain ⟨_, _, _, hst⟩ := h
    subst hst
    exact ⟨fun _ _ _ => rfl, le_refl _⟩
  | c :: rest, msgs, inA, outA, st, m2, i2, o2, st', h => by
    unfold handleLoop at h
    cases hg : goUnmarshalArgs c.arguments with
    | error e => simp only [hg] at h; exact Except.noConfusion h
    | ok fa =>
      simp only [hg] at h
      cases hex : execToolByName env c.name fa st with
      | none => simp only [hex] at h; exact Except.noConfusion h
      | some pr =>
        rcases pr with ⟨r, st2⟩
        simp only [hex] at h
        obtain ⟨hf, hl⟩ :=
          handleLoop_frame env sid rest (msgs ++ [Message.tool c.id r])
            (inA ++ [c.rawJson]) (outA ++ [r]) st2 m2 i2 o2 st' h
        obtain ⟨hf2, hl2⟩ := execToolByName_frame env c.name fa st r st2 hex
        refine ⟨fun j hj hjs => ?_, ?_⟩
        · rw [hf j (by rw [hl2]; exact Nat.lt_succ_of_lt hj) hjs, hf2 j hj]
        · calc st.spans.length ≤ st2.spans.length := by rw [hl2]; exact Nat.le_succ _
            _ ≤ st'.spans.length := hl

theorem handleToolCalls_frame (env : ToolEnv) (calls : List ToolCall)
    (msgs : List Message) (st : TraceState) (m2 : List Message) (st' : TraceState)
    (h : handleToolCalls env calls msgs st = .ok (m2, st')) :
    (∀ j, j < st.spans.length → getSpan st' j = getSpan st j) ∧
      st.spans.length < st'.spans.length := by
  unfold handleToolCalls at h
  simp only [startOpenInferenceSpan, startSpan] at h
  cases hl : handleLoop env st.spans.length calls msgs [] []
      { spans := st.spans ++
          [⟨"HandleToolCalls", st.lastRouterContext,
            [(openInferenceSpanKindKey, .str (toUpperString chainKind))], .unset, false⟩],
        agentContext := st.agentContext, lastRouterContext := st.lastRouterContext,
        handleToolContext := some st.spans.length,
        lastToolContext := st.lastToolContext } with
  | error e => rw [hl] at h; cases h
  | ok q =>
    rcases q with ⟨mm, iA, oA, st2⟩
    rw [hl] at h
    simp only [Except.ok.injEq, Prod.mk.injEq] at h
    obtain ⟨_, hst⟩ := h
    obtain ⟨hf, hlen⟩ := handleLoop_frame env st.spans.length calls msgs [] [] _ mm iA oA st2 hl
    have hlenL : (st.spans ++
        [(⟨"HandleToolCalls", st.lastRouterContext,
          [(openInferenceSpanKindKey, .str (toUpperString chainKind))], .unset, false⟩ : Span)]).length =
        st.spans.length + 1 := by simp
    constructor
    · intro j hj
      rw [← hst]
      have hj1 : getSpan st2 j = getSpan st j := by
        rw [hf j (by simp [hlenL, Nat.lt_succ_of_lt hj]) (Nat.ne_of_lt hj)]
        simp only [getSpan_eq_getD]
        exact listAppendGetDLt st.spans _ j defaultSpan hj
      rw [getSpan_endSpan_ne _ _ _ (Nat.ne_of_lt hj),
        getSpan_setSpanStatus_ne _ _ _ _ (Nat.ne_of_lt hj),
        getSpan_setSpanAttr_ne _ _ _ _ _ (Nat.ne_of_lt hj),
        getSpan_setSpanAttr_ne _ _ _ _ _ (Nat.ne_of_lt hj),
        getSpan_setSpanAttr_ne _ _ _ _ _ (Nat.ne_of_lt hj), hj1]
    · rw [← hst]
      simp only [spansLength_endSpan, spansLength_setSpanStatus, spansLength_setSpanAttr]
      have : st.spans.length + 1 ≤ st2.spans.length := by
        calc st.spans.length + 1 = _ := hlenL.symm
          _ ≤ st2.spans.length := hlen
      exact Nat.lt_of_lt_of_le (Nat.lt_succ_self _) this

theorem setSpanAttr_lastRouter (st : TraceState) (i : Nat) (k : String) (v : AttrValue) :
    (setSpanAttr st i k v).lastRouterContext = st.lastRouterContext := rfl

theorem setSpanStatus_lastRouter (st : TraceState) (i : Nat) (c : SpanStatus) :
    (setSpanStatus st i c).lastRouterContext = st.lastRouterContext := rfl

theorem endSpan_lastRouter (st : TraceState) (i : Nat) :
    (endSpan st i).lastRouterContext = st.lastRouterContext := rfl

/-- Net effect, on its own span, of the attribute/status/end sequence a
failing router span goes through (two attribute sets, an error status on
a previously-unset span, and the deferred end). -/
theorem selfChainErrorSpan2 (st0 : TraceState) (i : Nat) (k1 : String) (v1 : AttrValue)
    (k2 : String) (v2 : AttrValue) (hlt : i < st0.spans.length)
    (h0 : (getSpan st0 i).ended = false) (hs : (getSpan st0 i).status = .unset) :
    getSpan (endSpan (setSpanStatus (setSpanAttr (setSpanAttr st0 i k1 v1) i k2 v2)
        i .error) i) i =
      { getSpan st0 i with
          attrs := (getSpan st0 i).attrs ++ [(k1, v1)] ++ [(k2, v2)],
          status := .error, ended := true } := by
  have g1 := getSpan_setSpanAttr_self st0 i k1 v1 hlt h0
  have hl1 : i < (setSpanAttr st0 i k1 v1).spans.length := by
    rw [spansLength_setSpanAttr]; exact hlt
  have g2 := getSpan_setSpanAttr_self (setSpanAttr st0 i k1 v1) i k2 v2 hl1
    (by rw [g1]; exact h0)
  rw [g1] at g2
  have hl2 : i < (setSpanAttr (setSpanAttr st0 i k1 v1) i k2 v2).spans.length := by
    rw [spansLength_setSpanAttr]; exact hl1
  have g3 := getSpan_setSpanStatus_self_unset (setSpanAttr (setSpanAttr st0 i k1 v1) i k2 v2)
    i .error hl2 (by rw [g2]; exact h0) (by rw [g2]; exact hs)
  rw [g2] at g3
  have hl3 : i < (setSpanStatus (setSpanAttr (setSpanAttr st0 i k1 v1) i k2 v2)
      i .error).spans.length := by
    rw [spansLength_setSpanStatus]; exact hl2
  have g4 := getSpan_endSpan_self (setSpanStatus (setSpanAttr (setSpanAttr st0 i k1 v1)
      i k2 v2) i .error) i hl3 (by rw [g3]; exact h0)
  rw [g3] at g4
  rw [g4]

/-- Same, for the run-level span's error path: one attribute set, then
error status, then the deferred end. -/
theorem selfChainErrorSpan1 (st0 : TraceState) (i : Nat) (k1 : String) (v1 : AttrValue)
    (hlt : i < st0.spans.length) (h0 : (getSpan st0 i).ended = false)
    (hs : (getSpan st0 i).status = .unset) :
    getSpan (endSpan (setSpanStatus (setSpanAttr st0 i k1 v1) i .error) i) i =
      { getSpan st0 i with
          attrs := (getSpan st0 i).attrs ++ [(k1, v1)],
          status := .error, ended := true } := by
  have g1 := getSpan_setSpanAttr_self st0 i k1 v1 hlt h0
  have hl1 : i < (setSpanAttr st0 i k1 v1).spans.length := by
    rw [spansLength_setSpanAttr]; exact hlt
  have g2 := getSpan_setSpanStatus_self_unset (setSpanAttr st0 i k1 v1) i .error hl1
    (by rw [g1]; exact h0) (by rw [g1]; exact hs)
  rw [g1] at g2
  have hl2 : i < (setSpanStatus (setSpanAttr st0 i k1 v1) i .error).spans.length := by
    rw [spansLength_setSpanStatus]; exact hl1
  have g3 := getSpan_endSpan_self (setSpanStatus (setSpanAttr st0 i k1 v1) i .error) i hl2
    (by rw [g2]; exact h0)
  rw [g2] at g3
  rw [g3]

/-- One router iteration on a transport error, with the resulting trace
state written out: the router span is opened, registered in the
last-router slot, given its attributes, marked error, and then every
deferred span end (the new span and all pending earlier router spans)
runs; the responses after the error are never consulted. -/
theorem runAgentLoop_error_step (env : ToolEnv) (e : String)
    (rest : List CompletionResult) (msgs : List Message) (pending : List Nat)
    (st : TraceState) :
    runAgentLoop env (.error e :: rest) msgs pending st =
      (.transportError e,
        endAllSpans
          (setSpanStatus
            (setSpanAttr
              (setSpanAttr
                { st with
                    spans := st.spans ++
                      [⟨"RouterCall", st.agentContext,
                        [(openInferenceSpanKindKey, .str (toUpperString chainKind))],
                        .unset, false⟩],
                    lastRouterContext := some st.spans.length }
                st.spans.length openInferenceInputKey
                (.str (renderMessage (msgs.getLastD (Message.user "")))))
              st.spans.length "llm.model_name" (.str openaiModel))
            st.spans.length .error)
          (st.spans.length :: pending)) := rfl

/-- One router iteration on a successful response requesting tool calls:
after the router span's bookkeeping the loop dispatches the calls and
either panics or recurses on the remaining responses. -/
theorem runAgentLoop_ok_step (env : ToolEnv) (resp : CompletionResponse)
    (rest : List CompletionResult) (msgs : List Message) (pending : List Nat)
    (st : TraceState) (htc : resp.toolCalls.length ≠ 0) :
    runAgentLoop env (.ok resp :: rest) msgs pending st =
      (match handleToolCalls env resp.toolCalls
          (msgs ++ [Message.assistant resp.content resp.toolCalls])
          (setSpanAttr
            (setSpanStatus
              (setSpanAttr
                (setSpanAttr
                  { st with
                      spans := st.spans ++
                        [⟨"RouterCall", st.agentContext,
                          [(openInferenceSpanKindKey, .str (toUpperString chainKind))],
                          .unset, false⟩],
                      lastRouterContext := some st.spans.length }
                  st.spans.length openInferenceInputKey
                  (.str (renderMessage (msgs.getLastD (Message.user "")))))
                st.spans.length "llm.model_name" (.str openaiModel))
              st.spans.length .ok)
            st.spans.length openInferenceOutputKey
            (.strList (resp.toolCalls.map ToolCall.rawJson))) with
        | .error (e2, st2) => (.panicked e2, endAllSpans st2 (st.spans.length :: pending))
        | .ok (m2, st2) =>
          runAgentLoop env rest m2 (st.spans.length :: pending) st2) := by
  simp only [runAgentLoop, startOpenInferenceSpan, startSpan]
  rw [if_pos htc]

/-- A transport error at any router iteration: after any number of
successful tool-call iterations, the loop returns the error immediately
(the responses after the failing one are never consulted), the failing
iteration's router span — the one held by the last-router slot — is
marked error and ended, and the span opened before the loop started
(span 0, the run-level span) is left untouched for the caller to close. -/
theorem runAgentLoop_transport_error (env : ToolEnv) :
    ∀ (good : List CompletionResult) (e : String) (rest : List CompletionResult)
      (msgs : List Message) (pending : List Nat) (st : TraceState),
      (∀ r ∈ good, goodIterationB r = true) →
      (∀ i ∈ pending, 0 < i ∧ i < st.spans.length) →
      0 < st.spans.length →
      ∃ stF k,
        runAgentLoop env (good ++ .error e :: rest) msgs pending st =
          (.transportError e, stF) ∧
        runAgentLoop env (good ++ .error e :: rest) msgs pending st =
          runAgentLoop env (good ++ [.error e]) msgs pending st ∧
        st.spans.length ≤ stF.spans.length ∧
        getSpan stF 0 = getSpan st 0 ∧
        stF.lastRouterContext = some k ∧
        0 < k ∧
        (getSpan stF k).name = "RouterCall" ∧
        (getSpan stF k).status = .error ∧
        (getSpan stF k).ended = true
  | [], e, rest, msgs, pending, st, _, hpend, hlen => by
    have h0ne : (0 : Nat) ≠ st.spans.length := Nat.ne_of_lt hlen
    have h0nm : (0 : Nat) ∉ (st.spans.length :: pending) := by
      intro hm
      rcases List.mem_cons.mp hm with hc | hc
      · exact h0ne hc
      · exact Nat.lt_irrefl 0 (hpend 0 hc).1
    have hsnm : st.spans.length ∉ pending :=
      fun hm => Nat.lt_irrefl _ (hpend _ hm).2
    have hl0 : st.spans.length <
        ({ st with
            spans := st.spans ++
              [⟨"RouterCall", st.agentContext,
                [(openInferenceSpanKindKey, .str (toUpperString chainKind))],
                .unset, false⟩],
            lastRouterContext := some st.spans.length } : TraceState).spans.length := by
      simp
    have g0 : getSpan
        ({ st with
            spans := st.spans ++
              [⟨"RouterCall", st.agentContext,
                [(openInferenceSpanKindKey, .str (toUpperString chainKind))],
                .unset, false⟩],
            lastRouterContext := some st.spans.length } : TraceState) st.spans.length =
        ⟨"RouterCall", st.agentContext,
          [(openInferenceSpanKindKey, .str (toUpperString chainKind))], .unset, false⟩ :=
      listAppendGetDLen st.spans _ defaultSpan
    have gchain := selfChainErrorSpan2
      { st with
          spans := st.spans ++
            [⟨"RouterCall", st.agentContext,
              [(openInferenceSpanKindKey, .str (toUpperString chainKind))],
              .unset, false⟩],
          lastRouterContext := some st.spans.length }
      st.spans.length openInferenceInputKey
      (.str (renderMessage (msgs.getLastD (Message.user ""))))
      "llm.model_name" (.str openaiModel) hl0 (by rw [g0]) (by rw [g0])
    rw [g0] at gchain
    simp only [List.nil_append]
    refine ⟨_, st.spans.length, runAgentLoop_error_step env e rest msgs pending st,
      ?_, ?_, ?_, ?_, hlen, ?_, ?_, ?_⟩
    · simp only [runAgentLoop_error_step]
    · rw [spansLength_endAllSpans, spansLength_setSpanStatus, spansLength_setSpanAttr,
        spansLength_setSpanAttr]
      simp
    · rw [getSpan_endAllSpans_not_mem _ _ _ h0nm,
        getSpan_setSpanStatus_ne _ _ _ _ h0ne,
        getSpan_setSpanAttr_ne _ _ _ _ _ h0ne,
        getSpan_setSpanAttr_ne _ _ _ _ _ h0ne]
      exact listAppendGetDLt st.spans _ 0 defaultSpan hlen
    · rw [endAllSpans_lastRouter, setSpanStatus_lastRouter, setSpanAttr_lastRouter,
        setSpanAttr_lastRouter]
    all_goals rw [endAllSpans_cons, getSpan_endAllSpans_not_mem _ _ _ hsnm, gchain]
  | r :: good', e, rest, msgs, pending, st, hgood, hpend, hlen => by
    have hr := hgood r (List.mem_cons_self r good')
    cases r with
    | error e2 => simp [goodIterationB] at hr
    | ok resp =>
      simp only [goodIterationB, Bool.and_eq_true, decide_eq_true_eq,
        List.all_eq_true] at hr
      obtain ⟨htc, hwf⟩ := hr
      have h0ne : (0 : Nat) ≠ st.spans.length := Nat.ne_of_lt hlen
      simp only [List.cons_append]
      rw [runAgentLoop_ok_step env resp (good' ++ .error e :: rest) msgs pending st htc,
        runAgentLoop_ok_step env resp (good' ++ [(Except.error e : CompletionResult)]) msgs pending st htc]
      obtain ⟨stH, hH⟩ :=
        handleToolCalls_ok env resp.toolCalls
          (msgs ++ [Message.assistant resp.content resp.toolCalls])
          (setSpanAttr
            (setSpanStatus
              (setSpanAttr
                (setSpanAttr
                  { st with
                      spans := st.spans ++
                        [⟨"RouterCall", st.agentContext,
                          [(openInferenceSpanKindKey, .str (toUpperString chainKind))],
                          .unset, false⟩],
                      lastRouterContext := some st.spans.length }
                  st.spans.length openInferenceInputKey
                  (.str (renderMessage (msgs.getLastD (Message.user "")))))
                st.spans.length "llm.model_name" (.str openaiModel))
              st.spans.length .ok)
            st.spans.length openInferenceOutputKey
            (.strList (resp.toolCalls.map ToolCall.rawJson)))
          hwf
      rw [hH]
      obtain ⟨hfr, hltH⟩ := handleToolCalls_frame env resp.toolCalls _ _ _ stH hH
      have hltH2 := hltH
      rw [spansLength_setSpanAttr, spansLength_setSpanStatus, spansLength_setSpanAttr,
        spansLength_setSpanAttr] at hltH2
      simp only [TraceState.spans, List.length_append, List.length_cons,
        List.length_nil] at hltH2
      have hltH3 : st.spans.length < stH.spans.length := by omega
      have hframe0 : getSpan stH 0 = getSpan st 0 := by
        rw [hfr 0 (by
            rw [spansLength_setSpanAttr, spansLength_setSpanStatus, spansLength_setSpanAttr,
              spansLength_setSpanAttr]
            simp),
          getSpan_setSpanAttr_ne _ _ _ _ _ h0ne,
          getSpan_setSpanStatus_ne _ _ _ _ h0ne,
          getSpan_setSpanAttr_ne _ _ _ _ _ h0ne,
          getSpan_setSpanAttr_ne _ _ _ _ _ h0ne]
        exact listAppendGetDLt st.spans _ 0 defaultSpan hlen
      obtain ⟨stF, k, ih1, ih2, ih3, ih4, ih5, ih6, ih7, ih8, ih9⟩ :=
        runAgentLoop_transport_error env good' e rest
          (msgs ++ [Message.assistant resp.content resp.toolCalls] ++
            resp.toolCalls.map (fun c => Message.tool c.id (toolResult env c)))
          (st.spans.length :: pending) stH
          (fun r2 hm => hgood r2 (List.mem_cons_of_mem _ hm))
          (by
            intro i hm
            rcases List.mem_cons.mp hm with hc | hc
            · subst hc; exact ⟨hlen, hltH3⟩
            · exact ⟨(hpend i hc).1, Nat.lt_trans (hpend i hc).2 hltH3⟩)
          (Nat.lt_trans hlen hltH3)
      exact ⟨stF, k, ih1, ih2, Nat.le_trans (Nat.le_of_lt hltH3) ih3,
        by rw [ih4, hframe0], ih5, ih6, ih7, ih8, ih9⟩

/-- The three `toolFunctionArgs` field names stay distinct under
encoding/json's case folding, so an incoming key matches at most one. -/
theorem keyMatches_excl (k a b : String) (hab : foldKey a ≠ foldKey b)
    (ha : keyMatches k a = true) : keyMatches k b = false := by
  unfold keyMatches at *
  simp only [decide_eq_true_eq] at ha
  by_cases hb : foldKey k = foldKey b
  · exact absurd (ha.symm.trans hb) hab
  · simp [hb]

/-- Decoding a JSON object whose values are all strings (or nulls) never
errors: each matched field receives its last string occurrence, absent
fields keep the accumulator's (zero) value. -/
theorem decodeArgsLoop_strings :
    ∀ (fields : List (String × Json)) (acc : ToolFunctionArgs) (err : Option String),
      (∀ kv ∈ fields, (kv.2.isStr || kv.2.isNull) = true) →
      decodeArgsLoop fields acc err =
        (⟨lastStringValue fields "data" acc.data,
          lastStringValue fields "prompt" acc.prompt,
          lastStringValue fields "visualizationGoal" acc.visualizationGoal⟩, err)
  | [], acc, err, _ => by simp [decodeArgsLoop, lastStringValue]
  | (k, v) :: rest, acc, err, h => by
    have hv := h (k, v) (by simp)
    have hrest : ∀ kv ∈ rest, (kv.2.isStr || kv.2.isNull) = true :=
      fun kv hm => h kv (by simp [hm])
    cases v with
    | str s =>
      by_cases hd : keyMatches k "data" = true
      · have hp : keyMatches k "prompt" = false :=
          keyMatches_excl k "data" "prompt" (by decide) hd
        have hg : keyMatches k "visualizationGoal" = false :=
          keyMatches_excl k "data" "visualizationGoal" (by decide) hd
        have hm : matchesToolArgKey k = true := by
          simp [matchesToolArgKey, toolArgKeys, hd]
        simp [decodeArgsLoop, lastStringValue, hm, hd, hp, hg,
          decodeArgsLoop_strings rest _ err hrest]
      · simp only [Bool.not_eq_true] at hd
        by_cases hp : keyMatches k "prompt" = true
        · have hg : keyMatches k "visualizationGoal" = false :=
            keyMatches_excl k "prompt" "visualizationGoal" (by decide) hp
          have hm : matchesToolArgKey k = true := by
            simp [matchesToolArgKey, toolArgKeys, hp]
          simp [decodeArgsLoop, lastStringValue, hm, hd, hp, hg,
            decodeArgsLoop_strings rest _ err hrest]
        · simp only [Bool.not_eq_true] at hp
          by_cases hg : keyMatches k "visualizationGoal" = true
          · have hm : matchesToolArgKey k = true := by
              simp [matchesToolArgKey, toolArgKeys, hg]
            simp [decodeArgsLoop, lastStringValue, hm, hd, hp, hg,
              decodeArgsLoop_strings rest _ err hrest]
          · simp only [Bool.not_eq_true] at hg
            have hm : matchesToolArgKey k = false := by
              simp [matchesToolArgKey, toolArgKeys, hd, hp, hg]
            simp [decodeArgsLoop, lastStringValue, hm, hd, hp, hg,
              decodeArgsLoop_strings rest acc err hrest]
    | null =>
      by_cases hm : matchesToolArgKey k = true
      · simp [decodeArgsLoop, lastStringValue, hm,
          decodeArgsLoop_strings rest acc err hrest]
      · simp only [Bool.not_eq_true] at hm
        simp [decodeArgsLoop, lastStringValue, hm,
          decodeArgsLoop_strings rest acc err hrest]
    | bool b => simp [Json.isStr, Json.isNull] at hv
    | num n => simp [Json.isStr, Json.isNull] at hv
    | arr l => simp [Json.isStr, Json.isNull] at hv
    | obj o => simp [Json.isStr, Json.isNull] at hv

/-- The decode loop reports an error exactly when one was already pending
or some field is a recognized key with a non-string, non-null value. -/
theorem decodeArgsLoop_err :
    ∀ (fields : List (String × Json)) (acc : ToolFunctionArgs) (err : Option String),
      (decodeArgsLoop fields acc err).2.isSome = (err.isSome || fields.any badArgField)
  | [], acc, err => by simp [decodeArgsLoop]
  | (k, v) :: rest, acc, err => by
    cases v with
    | str s =>
      by_cases hk : matchesToolArgKey k = true <;>
        simp [decodeArgsLoop, badArgField, Json.isStr, Json.isNull, hk,
          decodeArgsLoop_err rest _ err]
    | null =>
      by_cases hk : matchesToolArgKey k = true <;>
        simp [decodeArgsLoop, badArgField, Json.isStr, Json.isNull, hk,
          decodeArgsLoop_err rest acc err]
    | bool b =>
      by_cases hk : matchesToolArgKey k = true <;>
        simp [decodeArgsLoop, badArgField, Json.isStr, Json.isNull, hk,
          decodeArgsLoop_err rest acc err, decodeArgsLoop_err rest acc]
    | num n =>
      by_cases hk : matchesToolArgKey k = true <;>
        simp [decodeArgsLoop, badArgField, Json.isStr, Json.isNull, hk,
          decodeArgsLoop_err rest acc err, decodeArgsLoop_err rest acc]
    | arr l =>
      by_cases hk : matchesToolArgKey k = true <;>
        simp [decodeArgsLoop, badArgField, Json.isStr, Json.isNull, hk,
          decodeArgsLoop_err rest acc err, decodeArgsLoop_err rest acc]
    | obj o =>
      by_cases hk : matchesToolArgKey k = true <;>
        simp [decodeArgsLoop, badArgField, Json.isStr, Json.isNull, hk,
          decodeArgsLoop_err rest acc err, decodeArgsLoop_err rest acc]

/-
--------------------------------------------------------------
Claim theorems
--------------------------------------------------------------
-/

/-- C7: formatting a bare string input yields exactly one user message
carrying that string, preceded by the prepended default system message. -/
theorem claim_C7_bare_string_formatting (s : String) :
    formatAgentMessages (.ofString s) = [Message.system systemPrompt, Message.user s] := by
  simp [formatAgentMessages, hasSystemMessage, Message.isSystem]

/-- C8: a message sequence already containing a system message passes
through the formatter unchanged — no second system message is inserted
and the relative order of the existing messages is preserved. -/
theorem claim_C8_existing_system_preserved (msgs : List Message)
    (h : hasSystemMessage msgs = true) :
    formatAgentMessages (.ofMessages msgs) = msgs := by
  simp [formatAgentMessages, h]

theorem claim_C8_witness :
    hasSystemMessage [Message.system "be nice", Message.user "hi"] = true ∧
    formatAgentMessages (.ofMessages [Message.system "be nice", Message.user "hi"]) =
      [Message.system "be nice", Message.user "hi"] :=
  ⟨rfl, claim_C8_existing_system_preserved [Message.system "be nice", Message.user "hi"] rfl⟩

/-- C3: on a well-formed tool-call list of length N the dispatcher
succeeds and appends exactly N tool-result messages — one per call, in
the order of the call list, each a tool message carrying the id of the
call that produced it. -/
theorem claim_C3_dispatcher_appends_in_order (env : ToolEnv) (toolCalls : List ToolCall)
    (messages : List Message) (st : TraceState)
    (h : ∀ c ∈ toolCalls, wellFormedTC c = true) :
    ∃ st', handleToolCalls env toolCalls messages st =
      .ok (messages ++ toolCalls.map (fun c => Message.tool c.id (toolResult env c)), st') :=
  handleToolCalls_ok env toolCalls messages st h

theorem claim_C3_witness :
    ∃ st', handleToolCalls okToolEnv
      [⟨"call_1", lookUpFuncName, some (.obj [("prompt", .str "sales for store 7")])⟩,
       ⟨"call_2", analyzeFuncName, some (.obj [("prompt", .str "analyze"), ("data", .str "rows")])⟩]
      [] traceInit =
      .ok ([] ++
        [⟨"call_1", lookUpFuncName, some (.obj [("prompt", .str "sales for store 7")])⟩,
         ⟨"call_2", analyzeFuncName, some (.obj [("prompt", .str "analyze"), ("data", .str "rows")])⟩].map
          (fun c => Message.tool c.id (toolResult okToolEnv c)), st') :=
  claim_C3_dispatcher_appends_in_order okToolEnv
    [⟨"call_1", lookUpFuncName, some (.obj [("prompt", .str "sales for store 7")])⟩,
     ⟨"call_2", analyzeFuncName, some (.obj [("prompt", .str "analyze"), ("data", .str "rows")])⟩]
    [] traceInit (by decide)

/-- C4: a tool-call list containing a call whose name is not one of the
known tool identifiers makes the dispatcher abort with a fatal error
(`log.Panic`); no message list is returned, so no silent empty or no-op
result is ever appended for such a call. -/
theorem claim_C4_unknown_tool_fatal (env : ToolEnv) (toolCalls : List ToolCall)
    (messages : List Message) (st : TraceState)
    (h : ∃ c ∈ toolCalls, knownToolName c.name = false) :
    ∃ e st', handleToolCalls env toolCalls messages st = .error (e, st') := by
  unfold handleToolCalls
  rcases hs : startOpenInferenceSpan "HandleToolCalls" chainKind st.lastRouterContext st with ⟨sid, st1⟩
  obtain ⟨e, st', hloop⟩ :=
    handleLoop_unknown env sid toolCalls messages [] [] { st1 with handleToolContext := some sid } h
  exact ⟨e, st', by simp only [hloop]⟩

theorem claim_C4_witness :
    ∃ e st', handleToolCalls okToolEnv [⟨"call_9", "NoSuchTool", some (.obj [])⟩] [] traceInit =
      .error (e, st') :=
  claim_C4_unknown_tool_fatal okToolEnv [⟨"call_9", "NoSuchTool", some (.obj [])⟩] [] traceInit
    ⟨⟨"call_9", "NoSuchTool", some (.obj [])⟩, by simp, by decide⟩

/-- C10: argument deserialization accepts every syntactically valid JSON
object whose fields are strings — absent expected parameters become empty
strings, keys match the expected parameter names case-insensitively (Go's
`encoding/json`), and keys matching no parameter are ignored;
deserialization fails exactly on malformed JSON, a non-object document,
or an expected key bound to a wrong-typed (non-string, non-null) value;
and the dispatcher invokes the tool with the defaulted arguments. -/
theorem claim_C10_lenient_argument_decoding :
    (∀ fields : List (String × Json), (∀ kv ∈ fields, kv.2.isStr = true) →
        goUnmarshalArgs (some (.obj fields)) =
          .ok ⟨lastStringValue fields "data" "", lastStringValue fields "prompt" "",
               lastStringValue fields "visualizationGoal" ""⟩) ∧
    (∀ payload : Option Json, (goUnmarshalArgs payload).isOk = !(badArgsPayload payload)) ∧
    (∀ (env : ToolEnv) (id : String) (fields : List (String × Json))
        (messages : List Message) (st : TraceState),
        (∀ kv ∈ fields, kv.2.isStr = true) →
        ∃ st', handleToolCalls env [⟨id, lookUpFuncName, some (.obj fields)⟩] messages st =
          .ok (messages ++
            [Message.tool id (lookUpResult env.lookUp (lastStringValue fields "prompt" ""))],
            st')) := by
  have hdec : ∀ fields : List (String × Json), (∀ kv ∈ fields, kv.2.isStr = true) →
      goUnmarshalArgs (some (.obj fields)) =
        .ok ⟨lastStringValue fields "data" "", lastStringValue fields "prompt" "",
             lastStringValue fields "visualizationGoal" ""⟩ := by
    intro fields h
    have h' : ∀ kv ∈ fields, (kv.2.isStr || kv.2.isNull) = true :=
      fun kv hm => by simp [h kv hm]
    simp only [goUnmarshalArgs]
    rw [decodeArgsLoop_strings fields emptyToolFunctionArgs none h']
    simp [emptyToolFunctionArgs]
  refine ⟨hdec, ?_, ?_⟩
  · intro payload
    match payload with
    | none => rfl
    | some .null => rfl
    | some (.bool b) => rfl
    | some (.num n) => rfl
    | some (.str s) => rfl
    | some (.arr l) => rfl
    | some (.obj fields) =>
      have herr := decodeArgsLoop_err fields emptyToolFunctionArgs none
      rcases hd : decodeArgsLoop fields emptyToolFunctionArgs none with ⟨args, errOpt⟩
      rw [hd] at herr
      cases errOpt with
      | none =>
        simp only [Option.isSome_none, Bool.false_or] at herr
        simp [goUnmarshalArgs, hd, badArgsPayload, ← herr, Except.isOk, Except.toBool]
      | some e =>
        simp only [Option.isSome_some, Option.isSome_none, Bool.false_or, Bool.true_eq] at herr
        simp [goUnmarshalArgs, hd, badArgsPayload, herr, Except.isOk, Except.toBool]
  · intro env id fields messages st h
    have hu := hdec fields h
    have hwf : ∀ c ∈ [(⟨id, lookUpFuncName, some (.obj fields)⟩ : ToolCall)],
        wellFormedTC c = true := by
      intro c hc
      simp only [List.mem_singleton] at hc
      subst hc
      simp [wellFormedTC, hu, knownToolName, Except.isOk, Except.toBool]
    obtain ⟨st', hh⟩ :=
      handleToolCalls_ok env [⟨id, lookUpFuncName, some (.obj fields)⟩] messages st hwf
    refine ⟨st', ?_⟩
    rw [hh]
    simp [toolResult, hu, Except.toOption, lookUpFuncName]

theorem claim_C10_witness :
    goUnmarshalArgs (some (.obj [("extra", .str "x")])) = .ok ⟨"", "", ""⟩ ∧
    goUnmarshalArgs (some (.obj [("Prompt", .str "x")])) = .ok ⟨"", "x", ""⟩ ∧
    (goUnmarshalArgs none).isOk = false ∧
    (goUnmarshalArgs (some (.obj [("Prompt", .num 42)]))).isOk = false ∧
    ∃ st', handleToolCalls okToolEnv
      [⟨"call_1", lookUpFuncName, some (.obj [("extra", .str "x")])⟩] [] traceInit =
      .ok ([] ++
        [Message.tool "call_1"
          (lookUpResult okToolEnv.lookUp (lastStringValue [("extra", .str "x")] "prompt" ""))],
        st') :=
  ⟨claim_C10_lenient_argument_decoding.1 [("extra", .str "x")] (by decide),
   claim_C10_lenient_argument_decoding.1 [("Prompt", .str "x")] (by decide),
   claim_C10_lenient_argument_decoding.2.1 none,
   claim_C10_lenient_argument_decoding.2.1 (some (.obj [("Prompt", .num 42)])),
   claim_C10_lenient_argument_decoding.2.2 okToolEnv "call_1" [("extra", .str "x")] [] traceInit
     (by decide)⟩

/-- C6: every failure inside tool execution — database open, table
creation, column probing, SQL generation, query execution, result-column
fetch, or row extraction in `LookUpSalesData`, and a failed or empty
completion in `AnalyzeSalesData` — yields a descriptive failure string as
the tool's result; and the dispatcher folds that result into the
conversation as an ordinary tool message instead of aborting the run. -/
theorem claim_C6_tool_failures_recoverable :
    (∀ (env : LookUpEnv) (prompt : String) (st : TraceState) (e : String),
        env.openDb = .error e →
        (LookUpSalesData env prompt st).1 = failOpenDbMsg e) ∧
    (∀ (env : LookUpEnv) (prompt : String) (st : TraceState) (e : String),
        env.openDb = .ok () → env.createTable = .error e →
        (LookUpSalesData env prompt st).1 = failCreateTableMsg e) ∧
    (∀ (env : LookUpEnv) (prompt : String) (st : TraceState) (e : String),
        env.openDb = .ok () → env.createTable = .ok () → env.probeQuery = .error e →
        (LookUpSalesData env prompt st).1 = failDbColumnsMsg e) ∧
    (∀ (env : LookUpEnv) (prompt : String) (st : TraceState) (e : String),
        env.openDb = .ok () → env.createTable = .ok () → env.probeQuery = .ok () →
        env.probeColumns = .error e →
        (LookUpSalesData env prompt st).1 = failDbColumnsMsg e) ∧
    (∀ (env : LookUpEnv) (prompt : String) (st : TraceState) (cols : List String) (e : String),
        env.openDb = .ok () → env.createTable = .ok () → env.probeQuery = .ok () →
        env.probeColumns = .ok cols →
        generateSqlQuery env prompt cols tableName = .error e →
        (LookUpSalesData env prompt st).1 = failGenSqlMsg e) ∧
    (∀ (env : LookUpEnv) (prompt : String) (st : TraceState) (cols : List String)
        (rawSql e : String),
        env.openDb = .ok () → env.createTable = .ok () → env.probeQuery = .ok () →
        env.probeColumns = .ok cols →
        generateSqlQuery env prompt cols tableName = .ok rawSql →
        env.runQuery (cleanSqlQuery rawSql) = .error e →
        (LookUpSalesData env prompt st).1 = failSelectMsg e) ∧
    (∀ (env : LookUpEnv) (prompt : String) (st : TraceState) (cols : List String)
        (rawSql e : String),
        env.openDb = .ok () → env.createTable = .ok () → env.probeQuery = .ok () →
        env.probeColumns = .ok cols →
        generateSqlQuery env prompt cols tableName = .ok rawSql →
        env.runQuery (cleanSqlQuery rawSql) = .ok () →
        env.rowsColumns (cleanSqlQuery rawSql) = .error e →
        (LookUpSalesData env prompt st).1 = failRowsColumnsMsg e) ∧
    (∀ (env : LookUpEnv) (prompt : String) (st : TraceState) (cols cols2 : List String)
        (rawSql e : String),
        env.openDb = .ok () → env.createTable = .ok () → env.probeQuery = .ok () →
        env.probeColumns = .ok cols →
        generateSqlQuery env prompt cols tableName = .ok rawSql →
        env.runQuery (cleanSqlQuery rawSql) = .ok () →
        env.rowsColumns (cleanSqlQuery rawSql) = .ok cols2 →
        env.extractRows (cleanSqlQuery rawSql) = .error e →
        (LookUpSalesData env prompt st).1 = failExtractMsg e) ∧
    (∀ (env : AnalyzeEnv) (prompt data : String) (st : TraceState) (e : String),
        env.llm (dataAnalysisPrompt data prompt) = .error e →
        (AnalyzeSalesData env prompt data st).1 = noAnalysisMsg) ∧
    (∀ (env : ToolEnv) (prompt id : String) (messages : List Message) (st : TraceState),
        ∃ st', handleToolCalls env [⟨id, lookUpFuncName, some (.obj [("prompt", .str prompt)])⟩]
          messages st =
          .ok (messages ++ [Message.tool id (lookUpResult env.lookUp prompt)], st')) := by
  refine ⟨?_, ?_, ?_, ?_, ?_, ?_, ?_, ?_, ?_, ?_⟩
  · intro env prompt st e h1
    simp [LookUpSalesData, h1]
  · intro env prompt st e h1 h2
    simp [LookUpSalesData, h1, h2]
  · intro env prompt st e h1 h2 h3
    simp [LookUpSalesData, h1, h2, h3]
  · intro env prompt st e h1 h2 h3 h4
    simp [LookUpSalesData, h1, h2, h3, h4]
  · intro env prompt st cols e h1 h2 h3 h4 h5
    simp [LookUpSalesData, h1, h2, h3, h4, h5]
  · intro env prompt st cols rawSql e h1 h2 h3 h4 h5 h6
    simp [LookUpSalesData, h1, h2, h3, h4, h5, h6]
  · intro env prompt st cols rawSql e h1 h2 h3 h4 h5 h6 h7
    simp [LookUpSalesData, h1, h2, h3, h4, h5, h6, h7]
  · intro env prompt st cols cols2 rawSql e h1 h2 h3 h4 h5 h6 h7 h8
    simp [LookUpSalesData, h1, h2, h3, h4, h5, h6, h7, h8]
  · intro env prompt data st e h
    simp [AnalyzeSalesData, h]
  · intro env prompt id messages st
    have hu : goUnmarshalArgs (some (.obj [("prompt", .str prompt)])) =
        .ok ⟨"", prompt, ""⟩ := by
      have k1 : keyMatches "prompt" "data" = false := by decide
      have k2 : keyMatches "prompt" "prompt" = true := by decide
      have k3 : matchesToolArgKey "prompt" = true := by decide
      simp [goUnmarshalArgs, decodeArgsLoop, emptyToolFunctionArgs, k1, k2, k3]
    have hwf : ∀ c ∈ [(⟨id, lookUpFuncName, some (.obj [("prompt", .str prompt)])⟩ : ToolCall)],
        wellFormedTC c = true := by
      intro c hc
      simp only [List.mem_singleton] at hc
      subst hc
      simp [wellFormedTC, hu, knownToolName, Except.isOk, Except.toBool]
    obtain ⟨st', hh⟩ :=
      handleToolCalls_ok env [⟨id, lookUpFuncName, some (.obj [("prompt", .str prompt)])⟩]
        messages st hwf
    refine ⟨st', ?_⟩
    rw [hh]
    simp [toolResult, hu, Except.toOption, lookUpFuncName]

theorem claim_C6_witness :
    (LookUpSalesData failingLookUpEnv "any question" traceInit).1 =
      failOpenDbMsg "no database" ∧
    ∃ st', handleToolCalls okToolEnv
      [⟨"call_1", lookUpFuncName, some (.obj [("prompt", .str "any question")])⟩] [] traceInit =
      .ok ([] ++ [Message.tool "call_1" (lookUpResult okToolEnv.lookUp "any question")], st') :=
  ⟨claim_C6_tool_failures_recoverable.1 failingLookUpEnv "any question" traceInit "no database" rfl,
   claim_C6_tool_failures_recoverable.2.2.2.2.2.2.2.2.2 okToolEnv "any question" "call_1" []
     traceInit⟩

/-- C5: when a completion call returns a transport error at any router
iteration — after any number of successful tool-call iterations — the run
returns that error to the caller without retrying (the responses after
the failing one are never consulted: the run equals the run whose stream
ends at the error), the failing iteration's router span — the one the
last-router slot holds — is marked error and closed, and the run-level
span is closed with status error rather than left open. -/
theorem claim_C5_transport_error_aborts (env : ToolEnv) (prompt e : String)
    (good rest : List CompletionResult)
    (hgood : ∀ r ∈ good, goodIterationB r = true) :
    ∃ stF k,
      startMainSpan env (good ++ .error e :: rest) prompt traceInit =
        (.transportError e, stF) ∧
      startMainSpan env (good ++ .error e :: rest) prompt traceInit =
        startMainSpan env (good ++ [.error e]) prompt traceInit ∧
      stF.lastRouterContext = some k ∧
      0 < k ∧
      (getSpan stF k).name = "RouterCall" ∧
      (getSpan stF k).status = .error ∧
      (getSpan stF k).ended = true ∧
      (getSpan stF 0).name = "AgentRun" ∧
      (getSpan stF 0).status = .error ∧
      (getSpan stF 0).ended = true := by
  have heq : ∀ R : List CompletionResult,
      startMainSpan env R prompt traceInit =
        match runAgentLoop env R (formatAgentMessages (.ofString prompt)) []
            (setSpanAttr
              (setSpanAttr
                { spans := [⟨"AgentRun", none,
                    [(openInferenceSpanKindKey, .str (toUpperString agentKind))],
                    .unset, false⟩],
                  agentContext := some 0, lastRouterContext := none,
                  handleToolContext := none, lastToolContext := none }
                0 openInferenceInputKey (.str prompt))
              0 "llm.model_name" (.str openaiModel)) with
        | (.done result, st) =>
          (.done result,
            endSpan (setSpanStatus (setSpanAttr st 0 openInferenceOutputKey (.str result))
              0 .ok) 0)
        | (.transportError e2, st) =>
          (.transportError e2,
            endSpan (setSpanStatus (setSpanAttr st 0 openInferenceOutputKey (.str ""))
              0 .error) 0)
        | (.panicked e2, st) => (.panicked e2, endSpan st 0)
        | (.outOfResponses, st) => (.outOfResponses, endSpan st 0) :=
    fun _ => rfl
  have hpos : 0 < (setSpanAttr
      (setSpanAttr
        ({ spans := [⟨"AgentRun", none,
             [(openInferenceSpanKindKey, .str (toUpperString agentKind))],
             .unset, false⟩],
           agentContext := some 0, lastRouterContext := none,
           handleToolContext := none, lastToolContext := none } : TraceState)
        0 openInferenceInputKey (.str prompt))
      0 "llm.model_name" (.str openaiModel)).spans.length := by
    rw [spansLength_setSpanAttr, spansLength_setSpanAttr]
    simp
  obtain ⟨stL, k, ih1, ih2, ih3, ih4, ih5, ih6, ih7, ih8, ih9⟩ :=
    runAgentLoop_transport_error env good e rest
      (formatAgentMessages (.ofString prompt)) []
      (setSpanAttr
        (setSpanAttr
          { spans := [⟨"AgentRun", none,
              [(openInferenceSpanKindKey, .str (toUpperString agentKind))],
              .unset, false⟩],
            agentContext := some 0, lastRouterContext := none,
            handleToolContext := none, lastToolContext := none }
          0 openInferenceInputKey (.str prompt))
        0 "llm.model_name" (.str openaiModel))
      hgood (fun i hi => absurd hi (List.not_mem_nil i)) hpos
  have gST4 : getSpan
      (setSpanAttr
        (setSpanAttr
          ({ spans := [⟨"AgentRun", none,
               [(openInferenceSpanKindKey, .str (toUpperString agentKind))],
               .unset, false⟩],
             agentContext := some 0, lastRouterContext := none,
             handleToolContext := none, lastToolContext := none } : TraceState)
          0 openInferenceInputKey (.str prompt))
        0 "llm.model_name" (.str openaiModel)) 0 =
      ⟨"AgentRun", none,
        [(openInferenceSpanKindKey, .str (toUpperString agentKind)),
         (openInferenceInputKey, .str prompt),
         ("llm.model_name", .str openaiModel)], .unset, false⟩ := rfl
  rw [gST4] at ih4
  have h0e : (getSpan stL 0).ended = false := by rw [ih4]
  have h0s : (getSpan stL 0).status = .unset := by rw [ih4]
  have schain := selfChainErrorSpan1 stL 0 openInferenceOutputKey (.str "")
    (Nat.lt_of_lt_of_le hpos ih3) h0e h0s
  rw [ih4] at schain
  have hkne : k ≠ 0 := Nat.pos_iff_ne_zero.mp ih6
  have hkframe : getSpan
      (endSpan (setSpanStatus (setSpanAttr stL 0 openInferenceOutputKey (.str ""))
        0 .error) 0) k = getSpan stL k := by
    rw [getSpan_endSpan_ne _ _ _ hkne, getSpan_setSpanStatus_ne _ _ _ _ hkne,
      getSpan_setSpanAttr_ne _ _ _ _ _ hkne]
  refine ⟨endSpan (setSpanStatus (setSpanAttr stL 0 openInferenceOutputKey (.str ""))
      0 .error) 0, k, ?_, ?_, ?_, ih6, ?_, ?_, ?_, ?_, ?_, ?_⟩
  · rw [heq, ih1]
  · rw [heq, heq, ih2]
  · rw [endSpan_lastRouter, setSpanStatus_lastRouter, setSpanAttr_lastRouter]
    exact ih5
  · rw [hkframe]
    exact ih7
  · rw [hkframe]
    exact ih8
  · rw [hkframe]
    exact ih9
  · rw [schain]
  · rw [schain]
  · rw [schain]

theorem claim_C5_witness :
    (∀ r ∈ c5GoodResponses, goodIterationB r = true) ∧
    (∃ stF k,
      startMainSpan okToolEnv
          (c5GoodResponses ++ .error "connection refused" :: c5TailResponses)
          salesQuestion traceInit =
        (.transportError "connection refused", stF) ∧
      startMainSpan okToolEnv
          (c5GoodResponses ++ .error "connection refused" :: c5TailResponses)
          salesQuestion traceInit =
        startMainSpan okToolEnv (c5GoodResponses ++ [.error "connection refused"])
          salesQuestion traceInit ∧
      stF.lastRouterContext = some k ∧
      0 < k ∧
      (getSpan stF k).name = "RouterCall" ∧
      (getSpan stF k).status = .error ∧
      (getSpan stF k).ended = true ∧
      (getSpan stF 0).name = "AgentRun" ∧
      (getSpan stF 0).status = .error ∧
      (getSpan stF 0).ended = true) :=
  ⟨by decide,
   claim_C5_transport_error_aborts okToolEnv salesQuestion "connection refused"
     c5GoodResponses c5TailResponses (by decide)⟩

/-- C1: evaluation of a run with one router iteration containing two tool
calls.  The run, router and handle-tool-calls spans nest as the claim
says (run → router → handle-tool-calls), but both tool spans are started
from the background context: they are parentless root spans — children
of nothing, in particular not of the handle-tool-calls span — sharing
top-level (parentless) position with the run span, contrary to the
claimed tree. -/
theorem claim_C1_tool_spans_are_roots :
    (getSpan scenarioTwoToolsRun.2 0).name = "AgentRun" ∧
    (getSpan scenarioTwoToolsRun.2 0).parent = none ∧
    (getSpan scenarioTwoToolsRun.2 1).name = "RouterCall" ∧
    (getSpan scenarioTwoToolsRun.2 1).parent = some 0 ∧
    (getSpan scenarioTwoToolsRun.2 2).name = "HandleToolCalls" ∧
    (getSpan scenarioTwoToolsRun.2 2).parent = some 1 ∧
    (getSpan scenarioTwoToolsRun.2 3).name = "LookUpTool" ∧
    (getSpan scenarioTwoToolsRun.2 4).name = "LookUpTool" ∧
    (getSpan scenarioTwoToolsRun.2 3).parent = none ∧
    (getSpan scenarioTwoToolsRun.2 4).parent = none ∧
    (getSpan scenarioTwoToolsRun.2 3).parent ≠ some 2 ∧
    (getSpan scenarioTwoToolsRun.2 4).parent ≠ some 2 ∧
    (getSpan scenarioTwoToolsRun.2 3).parent = (getSpan scenarioTwoToolsRun.2 0).parent := by
  decide

/-- C2 as stated is false: the scenario run does terminate returning
"Sales were flat", but it produces 3 chain-kind spans (two router
iterations plus the handle-tool-calls span), not 2, and 0 tool-kind
spans (the tool's span carries no openinference kind attribute), not 1. -/
theorem claim_C2_counterexample :
    ¬(scenarioOneToolRun.1 = .done "Sales were flat" ∧
      countSpansOfKind scenarioOneToolRun.2 "CHAIN" = 2 ∧
      countSpansOfKind scenarioOneToolRun.2 "TOOL" = 1) := by
  decide

/-- C2 (amended): the scenario loop terminates in `Done` returning
"Sales were flat", having produced exactly 3 chain-kind spans (router
iteration ×2 and the handle-tool-calls span), exactly one tool-execution
span (named "LookUpTool"), and no span tagged with the tool kind. -/
theorem claim_C2_scenario_amended :
    scenarioOneToolRun.1 = .done "Sales were flat" ∧
    countSpansOfKind scenarioOneToolRun.2 "CHAIN" = 3 ∧
    countSpansOfKind scenarioOneToolRun.2 "TOOL" = 0 ∧
    countSpansNamed scenarioOneToolRun.2 "LookUpTool" = 1 := by
  decide

/-- C9 as stated is false: at the end of the two-tool-call run the run,
last-router and last-tool-handling slots do reflect the most recently
opened spans of their roles, but the last-tool slot does not — no call
site ever updates `LastToolContext`, so it does not reflect the most
recently opened tool span. -/
theorem claim_C9_counterexample :
    ¬(scenarioTwoToolsRun.2.agentContext =
        lastSpanNamedIn scenarioTwoToolsRun.2 ["AgentRun"] ∧
      scenarioTwoToolsRun.2.lastRouterContext =
        lastSpanNamedIn scenarioTwoToolsRun.2 ["RouterCall"] ∧
      scenarioTwoToolsRun.2.handleToolContext =
        lastSpanNamedIn scenarioTwoToolsRun.2 ["HandleToolCalls"] ∧
      scenarioTwoToolsRun.2.lastToolContext =
        lastSpanNamedIn scenarioTwoToolsRun.2
          ["LookUpTool", "AnalyzeTool", "VisualizationTool"]) := by
  decide

/-- C9 (amended): the manager provides the four named slots, and the run,
last-router and last-tool-handling slots are updated immediately after
their spans open (each reflects the most recently opened span of its
role), but the last-tool slot is never updated by any call site: it stays
unset even though tool spans were opened during the run. -/
theorem claim_C9_slots_amended :
    scenarioTwoToolsRun.2.agentContext =
      lastSpanNamedIn scenarioTwoToolsRun.2 ["AgentRun"] ∧
    scenarioTwoToolsRun.2.lastRouterContext =
      lastSpanNamedIn scenarioTwoToolsRun.2 ["RouterCall"] ∧
    scenarioTwoToolsRun.2.handleToolContext =
      lastSpanNamedIn scenarioTwoToolsRun.2 ["HandleToolCalls"] ∧
    scenarioTwoToolsRun.2.lastToolContext = none ∧
    lastSpanNamedIn scenarioTwoToolsRun.2
      ["LookUpTool", "AnalyzeTool", "VisualizationTool"] = some 4 := by
  decide
